import Mathlib

/-!
# Typed-array runtime functions and WebAssembly builtins

A shallow embedding of `src/runtime/runtime-typedarray.cc` and
`src/builtins/builtins-wasm-gen.cc`, followed by the properties proved about it.

Conventions of the embedding.

* A value of a C element type is represented by its object representation, a
  natural number read as a bit pattern of `8 * sizeof` bits.
* `DCHECK`s are compiled out of release builds and are not executed by the
  model; a failing `CHECK` aborts and is the result `Completion.check_failed`
  (`none` for the two copy entry points).
* `std::sort` is the C++ standard library's algorithm, not code of the
  repository.  The functions that call it take it as an argument, and the
  theorems hold for every implementation that meets the library contract
  (`StdSortContract`).
-/

namespace V8

/-! ## Element types -/

/-- The C element types (`ctype`) that the `TYPED_ARRAYS` list instantiates. -/
inductive CType
  | int8_t | uint8_t | int16_t | uint16_t | int32_t | uint32_t
  | float | double | int64_t | uint64_t
  deriving DecidableEq

/-- Size in bytes, `sizeof(ctype)`. -/
def CType.sizeof : CType → Nat
  | .int8_t | .uint8_t => 1
  | .int16_t | .uint16_t => 2
  | .int32_t | .uint32_t | .float => 4
  | .double | .int64_t | .uint64_t => 8

/-- Width in bits of the object representation. -/
def CType.bits (T : CType) : Nat := 8 * T.sizeof

/-- The trait `std::is_integral<T>::value`. -/
def CType.is_integral : CType → Bool
  | .float | .double => false
  | _ => true

/-- The trait `std::is_signed<T>::value` restricted to the integral types. -/
def CType.is_signed : CType → Bool
  | .int8_t | .int16_t | .int32_t | .int64_t => true
  | _ => false

/-- Number of explicit significand bits of the IEEE-754 binary formats. -/
def CType.mantissaBits : CType → Nat
  | .float => 23
  | .double => 52
  | _ => 0

/-- Numeric value of an integral bit pattern: two's complement for the signed
types, the plain binary value for the unsigned ones. -/
def CType.toInt (T : CType) (x : Nat) : Int :=
  if T.is_signed && decide (2 ^ (T.bits - 1) ≤ x % 2 ^ T.bits) then
    ((x % 2 ^ T.bits : Nat) : Int) - ((2 ^ T.bits : Nat) : Int)
  else ((x % 2 ^ T.bits : Nat) : Int)

/-- The sign bit of a floating-point pattern, `std::signbit`.  The source widens
to `double` first; widening keeps the sign bit. -/
def signbit (T : CType) (x : Nat) : Bool := decide (x / 2 ^ (T.bits - 1) % 2 = 1)

/-- Exponent and significand fields of a floating-point pattern, read as one
number.  Among the non-NaN values of one sign the IEEE-754 encoding is monotone:
a larger field is a larger absolute value. -/
def magnitude (T : CType) (x : Nat) : Nat := x % 2 ^ (T.bits - 1)

/-- Magnitude field of the infinities: exponent all ones, significand zero. -/
def infinityBits (T : CType) : Nat := 2 ^ (T.bits - 1) - 2 ^ T.mantissaBits

/-- The predicate `std::isnan`: exponent all ones and a non-zero significand.
Widening to `double` keeps it. -/
def isnan (T : CType) (x : Nat) : Bool := decide (infinityBits T < magnitude T x)

/-- Position of a non-NaN floating-point value on the number line: the signed
magnitude field.  Both zeros sit at `0`; the map is strictly monotone in the
numeric value. -/
def ordinal (T : CType) (x : Nat) : Int :=
  if signbit T x then -((magnitude T x : Nat) : Int) else ((magnitude T x : Nat) : Int)

/-- The built-in `x < y` on `T`.  For the floating-point types every comparison
with a NaN operand is false. -/
def CType.lt (T : CType) (x y : Nat) : Bool :=
  if T.is_integral then decide (T.toInt x < T.toInt y)
  else !isnan T x && !isnan T y && decide (ordinal T x < ordinal T y)

/-- The built-in `x > y` on `T`. -/
def CType.gt (T : CType) (x y : Nat) : Bool := T.lt y x

/-- The built-in `x == y` on `T`.  For the floating-point types a NaN is equal to
nothing and the two zeros are equal. -/
def CType.eq (T : CType) (x y : Nat) : Bool :=
  if T.is_integral then decide (T.toInt x = T.toInt y)
  else !isnan T x && !isnan T y && decide (ordinal T x = ordinal T y)

/-- The template `CompareNum<T>` of runtime-typedarray.cc. -/
def CompareNum (T : CType) (x y : Nat) : Bool :=
  if T.lt x y then true
  else if T.gt x y then false
  else if !T.is_integral then
    if T.eq x 0 && T.eq x y then
      /- -0.0 is less than +0.0 -/
      signbit T x && !signbit T y
    else if !isnan T x && isnan T y then
      /- number is less than NaN -/
      true
    else false
  else false

/-- Rank of a value in the order that `CompareNum` induces: the numeric value
for integral types; for floating-point types the negative numbers, then -0.0,
then +0.0, then the positive numbers, then every NaN. -/
def sortKey (T : CType) (x : Nat) : Int :=
  if T.is_integral then T.toInt x
  else if isnan T x then ((2 ^ (T.bits - 1) : Nat) : Int)
  else if signbit T x then -((magnitude T x : Nat) : Int) - 1
  else ((magnitude T x : Nat) : Int)

/-! ## The contract of `std::sort` -/

/-- The requirement that the C++ standard puts on the comparator handed to
`std::sort`: a strict weak ordering. -/
structure StrictWeakOrdering (comp : Nat → Nat → Bool) : Prop where
  irrefl : ∀ x, comp x x = false
  trans : ∀ x y z, comp x y = true → comp y z = true → comp x z = true
  incomp_trans : ∀ x y z, comp x y = false → comp y x = false →
    comp y z = false → comp z y = false → comp x z = false ∧ comp z x = false

/-- Type of `std::sort` over a range of element values and a comparator. -/
abbrev StdSort := (Nat → Nat → Bool) → List Nat → List Nat

/-- The library contract of `std::sort`: when the comparator is a strict weak
ordering, the range afterwards holds a permutation of its elements and no
element compares less than one that precedes it. -/
def StdSortContract (std_sort : StdSort) : Prop :=
  ∀ comp xs, StrictWeakOrdering comp →
    (std_sort comp xs).Perm xs ∧ (std_sort comp xs).Pairwise (fun a b => comp b a = false)

/-- A reference implementation of `std::sort`, straight insertion, used to
show that the contract can be met and to evaluate examples. -/
def insertionSort : StdSort :=
  fun comp xs => List.insertionSort (fun a b => comp b a = false) xs

/-! ## Raw memory -/

/-- One byte of raw memory. -/
abbrev Byte := Fin 256

/-- Read the object representation stored in a run of bytes (least significant
byte first). -/
def loadBytes : List Byte → Nat
  | [] => 0
  | b :: bs => b.val + 256 * loadBytes bs

/-- Store the low `n` bytes of an object representation. -/
def storeBytes : Nat → Nat → List Byte
  | 0, _ => []
  | n + 1, x => ⟨x % 256, Nat.mod_lt _ (by decide)⟩ :: storeBytes n (x / 256)

/-- Read `count` consecutive elements of type `T` through a `T*` that points at `mem`. -/
def readElements (T : CType) : Nat → List Byte → List Nat
  | 0, _ => []
  | count + 1, mem =>
    loadBytes (mem.take T.sizeof) :: readElements T count (mem.drop T.sizeof)

/-- The bytes of consecutive elements of type `T`. -/
def writeElements (T : CType) : List Nat → List Byte
  | [] => []
  | x :: xs => storeBytes T.sizeof x ++ writeElements T xs

/-- The call `std::memcpy(dst, src, n)`: the first `n` bytes at `dst` are
replaced by the first `n` bytes at `src`. -/
def memcpy (dst src : List Byte) (n : Nat) : List Byte := src.take n ++ dst.drop n

/-- The call `std::sort(data, data + length, comp)` through a `T*` that points
at `mem`: the first `length` elements are sorted in place, the bytes behind
them are not touched. -/
def sortRange (std_sort : StdSort) (T : CType) (comp : Nat → Nat → Bool)
    (mem : List Byte) (length : Nat) : List Byte :=
  writeElements T (std_sort comp (readElements T length mem)) ++ mem.drop (length * T.sizeof)

/-! ## Heap objects -/

/-- The element kinds of the `TYPED_ARRAYS` list.  The list macro is declared
outside the two source files; the kinds and their C types are those of the
JavaScript typed arrays. -/
inductive ExternalArrayType
  | kExternalUint8Array | kExternalInt8Array | kExternalUint16Array | kExternalInt16Array
  | kExternalUint32Array | kExternalInt32Array | kExternalFloat32Array | kExternalFloat64Array
  | kExternalUint8ClampedArray | kExternalBigUint64Array | kExternalBigInt64Array
  deriving DecidableEq

/-- The `ctype` column of the `TYPED_ARRAYS` list. -/
def ExternalArrayType.ctype : ExternalArrayType → CType
  | .kExternalUint8Array => .uint8_t
  | .kExternalInt8Array => .int8_t
  | .kExternalUint16Array => .uint16_t
  | .kExternalInt16Array => .int16_t
  | .kExternalUint32Array => .uint32_t
  | .kExternalInt32Array => .int32_t
  | .kExternalFloat32Array => .float
  | .kExternalFloat64Array => .double
  | .kExternalUint8ClampedArray => .uint8_t
  | .kExternalBigUint64Array => .uint64_t
  | .kExternalBigInt64Array => .int64_t

/-- A backing store with its flags (`JSArrayBuffer`). -/
structure JSArrayBuffer where
  backing_store : List Byte
  is_shared : Bool
  was_detached : Bool
  deriving DecidableEq

/-- A typed view (`JSTypedArray`); `buffer` is the heap address of its `JSArrayBuffer`. -/
structure JSTypedArray where
  type : ExternalArrayType
  buffer : Nat
  byte_offset : Nat
  byte_length : Nat
  length : Nat
  deriving DecidableEq

/-- What a heap cell can hold. -/
inductive HeapObject
  | JSArrayBuffer (buffer : V8.JSArrayBuffer)
  | JSTypedArray (array : V8.JSTypedArray)
  | Other
  deriving DecidableEq

/-- A tagged value: a small integer, the undefined value, or a pointer into the heap. -/
inductive Object
  | Smi (value : Int)
  | Undefined
  | HeapPointer (address : Nat)
  deriving DecidableEq

/-- Message templates used by the runtime functions embedded here. -/
inductive MessageTemplate
  | kNotTypedArray
  deriving DecidableEq

/-- Effects on raw memory, recorded in program order. -/
inductive MemEvent
  | NewByteArray (bytes : Nat)
  | memcpy_from_store (buffer offset bytes : Nat)
  | sort_scratch (length : Nat)
  | sort_store (buffer offset length : Nat)
  | memcpy_to_store (buffer offset bytes : Nat)
  deriving DecidableEq

/-- The state a runtime function works on: the heap, and the record of the
raw-memory effects performed so far. -/
structure Isolate where
  heap : List HeapObject
  trace : List MemEvent
  deriving DecidableEq

/-- How a runtime function ends: it returns a value, it returns the failure
sentinel with a pending `TypeError`, or a `CHECK` aborts the process. -/
inductive Completion
  | ok (value : Object) (isolate : Isolate)
  | exception (type_error : MessageTemplate) (isolate : Isolate)
  | check_failed
  deriving DecidableEq

/-- The test `Object::IsJSArrayBuffer`. -/
def Object.IsJSArrayBuffer (heap : List HeapObject) : Object → Bool
  | Object.HeapPointer p =>
    match heap[p]? with
    | some (.JSArrayBuffer _) => true
    | _ => false
  | _ => false

/-- The test `Object::IsJSTypedArray`. -/
def Object.IsJSTypedArray (heap : List HeapObject) : Object → Bool
  | Object.HeapPointer p =>
    match heap[p]? with
    | some (.JSTypedArray _) => true
    | _ => false
  | _ => false

/-- Modelled from the spec: `JSArrayBuffer::Detach` is defined outside the two
source files; per the spec it sets the backing store's length to 0 and
`detached = true`. -/
def JSArrayBuffer.Detach (b : JSArrayBuffer) : JSArrayBuffer :=
  { b with backing_store := [], was_detached := true }

/-- The address `array->DataPtr()`: the backing store from the view's byte offset on. -/
def JSTypedArray.DataPtr (array : JSTypedArray) (buffer : JSArrayBuffer) : List Byte :=
  buffer.backing_store.drop array.byte_offset

/-- Largest value of `int`. -/
def INT_MAX : Nat := 2 ^ 31 - 1

/-- Largest value of `uint32_t`. -/
def kMaxUInt32 : Nat := 2 ^ 32 - 1

/-- Build-time constants that the sort consults. -/
structure BuildConfig where
  COMPRESS_POINTERS_BOOL : Bool
  kTaggedSize : Nat
  deriving DecidableEq

/-- Alignment of the element types, equal to their size. -/
def CType.alignof (T : CType) : Nat := T.sizeof

/-! ## runtime-typedarray.cc -/

/-- The function `Runtime_ArrayBufferDetach`. -/
def Runtime_ArrayBufferDetach (isolate : Isolate) (args : List Object) : Completion :=
  match args[0]? with
  | none => .check_failed
  | some argument =>
    /- This runtime function is exposed in ClusterFuzz and as such has to
       support arbitrary arguments. -/
    if !argument.IsJSArrayBuffer isolate.heap then
      .exception .kNotTypedArray isolate
    else
      match argument with
      | Object.HeapPointer p =>
        match isolate.heap[p]? with
        | some (.JSArrayBuffer array_buffer) =>
          .ok .Undefined
            { isolate with heap := isolate.heap.set p (.JSArrayBuffer array_buffer.Detach) }
        | _ => .check_failed
      | _ => .check_failed

/-- One case of the `TYPED_ARRAY_SORT` macro: sort `length` elements at `data`.
The two float kinds use `CompareNum`, the other kinds the built-in `<`.  The
`UnalignedSlot` variant runs the same `std::sort` through byte-wise accesses. -/
def TYPED_ARRAY_SORT (std_sort : StdSort) (cfg : BuildConfig) (type : ExternalArrayType)
    (data : List Byte) (length : Nat) : List Byte :=
  if type = .kExternalFloat64Array ∨ type = .kExternalFloat32Array then
    if cfg.COMPRESS_POINTERS_BOOL && decide (type.ctype.alignof > cfg.kTaggedSize) then
      sortRange std_sort type.ctype (CompareNum type.ctype) data length
    else
      sortRange std_sort type.ctype (CompareNum type.ctype) data length
  else
    if cfg.COMPRESS_POINTERS_BOOL && decide (type.ctype.alignof > cfg.kTaggedSize) then
      sortRange std_sort type.ctype type.ctype.lt data length
    else
      sortRange std_sort type.ctype type.ctype.lt data length

/-- The function `Runtime_TypedArraySortFast`. -/
def Runtime_TypedArraySortFast (std_sort : StdSort) (cfg : BuildConfig) (isolate : Isolate)
    (args : List Object) : Completion :=
  /- CONVERT_ARG_HANDLE_CHECKED(JSTypedArray, array, 0) -/
  match args[0]? with
  | some (Object.HeapPointer p) =>
    match isolate.heap[p]? with
    | some (.JSTypedArray array) =>
      let length := array.length
      if length ≤ 1 then .ok (Object.HeapPointer p) isolate
      else
        /- CHECK(array->buffer().IsJSArrayBuffer()) -/
        match isolate.heap[array.buffer]? with
        | some (.JSArrayBuffer buffer) =>
          let copy_data := buffer.is_shared
          if copy_data then
            let bytes := array.byte_length
            /- CHECK_LE(bytes, INT_MAX) -/
            if bytes ≤ INT_MAX then
              let array_copy := memcpy (List.replicate bytes 0) (array.DataPtr buffer) bytes
              let array_copy := TYPED_ARRAY_SORT std_sort cfg array.type array_copy length
              let store := buffer.backing_store.take array.byte_offset ++
                memcpy (array.DataPtr buffer) array_copy bytes
              .ok (Object.HeapPointer p)
                { heap := isolate.heap.set array.buffer
                    (.JSArrayBuffer { buffer with backing_store := store })
                  trace := isolate.trace ++
                    [.NewByteArray bytes,
                     .memcpy_from_store array.buffer array.byte_offset bytes,
                     .sort_scratch length,
                     .memcpy_to_store array.buffer array.byte_offset bytes] }
            else .check_failed
          else
            let store := buffer.backing_store.take array.byte_offset ++
              TYPED_ARRAY_SORT std_sort cfg array.type (array.DataPtr buffer) length
            .ok (Object.HeapPointer p)
              { heap := isolate.heap.set array.buffer
                  (.JSArrayBuffer { buffer with backing_store := store })
                trace := isolate.trace ++ [.sort_store array.buffer array.byte_offset length] }
        | _ => .check_failed
    | _ => .check_failed
  | _ => .check_failed

/-- The elements a view shows: `length` values of its element type read at its
byte offset in the backing store of `buffer`. -/
def JSTypedArray.elements (array : JSTypedArray) (buffer : JSArrayBuffer) : List Nat :=
  readElements array.type.ctype array.length (array.DataPtr buffer)

/-- Well-formed view over a buffer: the byte length is the element count times
the element width, and the view lies inside the backing store. -/
def JSTypedArray.Valid (array : JSTypedArray) (buffer : JSArrayBuffer) : Prop :=
  array.byte_length = array.length * array.type.ctype.sizeof ∧
  array.byte_offset + array.byte_length ≤ buffer.backing_store.length

/-- The comparator that `TYPED_ARRAY_SORT` hands to `std::sort` for an element
kind: `CompareNum` for the two float kinds, the built-in `<` for the others. -/
def ExternalArrayType.comparator (type : ExternalArrayType) : Nat → Nat → Bool :=
  if type = .kExternalFloat64Array ∨ type = .kExternalFloat32Array then CompareNum type.ctype
  else type.ctype.lt

/-- The backing store in which the window of the view has been replaced by the
bytes of its sorted elements. -/
def sortedStore (std_sort : StdSort) (array : JSTypedArray) (buffer : JSArrayBuffer) :
    List Byte :=
  buffer.backing_store.take array.byte_offset ++
    (writeElements array.type.ctype (std_sort array.type.comparator (array.elements buffer)) ++
      buffer.backing_store.drop (array.byte_offset + array.byte_length))

/-- The arguments of the two copy entry points: `args[0]` is the target typed
array, `args[1]` the source object, the remaining arguments are numbers. -/
structure Arguments (Tgt Src Num : Type) where
  target : Tgt
  source : Src
  numbers : List Num

/-- The function `Runtime_TypedArrayCopyElements`.  `TryNumberToSize` and the
elements accessor of the target (`accessor->CopyElements`) are defined outside
the two source files and are arguments here.  A failing `CHECK` is `none`. -/
def Runtime_TypedArrayCopyElements {Tgt Src Num R : Type} (TryNumberToSize : Num → Option Nat)
    (accessor_CopyElements : Src → Tgt → Nat → Nat → R) (args : Arguments Tgt Src Num) :
    Option R :=
  match args.numbers[0]? with
  | none => none
  | some length_obj =>
    match TryNumberToSize length_obj with
    | none => none
    | some length => some (accessor_CopyElements args.source args.target length 0)

/-- The function `Runtime_TypedArraySet`; the offset is narrowed by
`static_cast<uint32_t>`. -/
def Runtime_TypedArraySet {Tgt Src Num R : Type} (TryNumberToSize : Num → Option Nat)
    (accessor_CopyElements : Src → Tgt → Nat → Nat → R) (args : Arguments Tgt Src Num) :
    Option R :=
  match args.numbers[0]?, args.numbers[1]? with
  | some length_obj, some offset_obj =>
    match TryNumberToSize length_obj with
    | none => none
    | some length =>
      match TryNumberToSize offset_obj with
      | none => none
      | some offset => some (accessor_CopyElements args.source args.target length (offset % 2 ^ 32))
  | _, _ => none

/-- Modelled from the spec: `ElementsAccessor::CopyElements` is defined outside
the two source files.  Per the spec it copies `length` logical elements, reading
the source from index 0 and writing the target from `offset`, each element
converted by the rule of the pair of kinds (`convert`). -/
def CopyElements {α β : Type} (convert : β → α) (source : Nat → β) (target : List α)
    (length offset : Nat) : List α :=
  target.take offset ++ ((List.range length).map (fun i => convert (source i)) ++
    target.drop (offset + length))

/-- Conversion of a number argument to `size_t` for the examples: defined for
the non-negative integers. -/
def exampleNumberToSize (v : Int) : Option Nat := if 0 ≤ v then some v.toNat else none

/-! ## builtins-wasm-gen.cc -/

/-- The trap reasons.  The source files name `kTrapTableOutOfBounds`; the other
reasons of `FOREACH_WASM_TRAPREASON`, a list macro declared outside the two
source files, are numbered. -/
inductive TrapReason
  | kTrapTableOutOfBounds
  | other (index : Nat)
  deriving DecidableEq

/-- The part of a `WasmInstanceObject` that the builtins and the runtime
functions behind them use. -/
structure WasmInstanceObject where
  native_context : Nat
  tables : List (List Object)
  deriving DecidableEq

/-- A call of a runtime function, with the context and the arguments it receives
besides the instance. -/
inductive RuntimeCall
  | kWasmMemoryGrow (context : Nat) (num_pages : Int)
  | kWasmFunctionTableGet (context : Nat) (table_index entry_index : Int)
  | kWasmFunctionTableSet (context : Nat) (table_index entry_index : Int) (value : Object)
  | kThrowWasmError (context : Nat) (message_id : Int)
  deriving DecidableEq

/-- What a runtime function hands back: a value, or a thrown error identified by
its message id. -/
inductive RuntimeResult
  | value (result : Object)
  | exception (message_id : Int)
  deriving DecidableEq

/-- Collaborators of the builtins that are defined outside the two source files:
the largest Smi, the table from trap reasons to message ids, and the runtime
functions, which act on the instance. -/
structure WasmEnv where
  kSmiMaxValue : Int
  TrapReasonToMessageId : TrapReason → Int
  runtime : RuntimeCall → WasmInstanceObject → RuntimeResult × WasmInstanceObject

/-- The frame of the WebAssembly code that called the builtin. -/
structure Frame where
  wasm_instance : WasmInstanceObject
  deriving DecidableEq

/-- How a builtin ends: `ReturnRaw`, a tail call whose result is the result of
the runtime function, or the unwinding of an exception thrown inside `CallRuntime`. -/
inductive BuiltinExit
  | ReturnRaw (value : Int)
  | TailCallRuntime (result : RuntimeResult)
  | Unwind (message_id : Int)
  deriving DecidableEq

/-- A run of a builtin: how it ended, the instance afterwards, and the runtime
calls it made, in order. -/
structure BuiltinRun where
  exit : BuiltinExit
  wasm_instance : WasmInstanceObject
  calls : List RuntimeCall
  deriving DecidableEq

/-- The method `WasmBuiltinsAssembler::LoadInstanceFromFrame`. -/
def LoadInstanceFromFrame (frame : Frame) : WasmInstanceObject := frame.wasm_instance

/-- The method `WasmBuiltinsAssembler::LoadContextFromInstance`. -/
def LoadContextFromInstance (inst : WasmInstanceObject) : Nat := inst.native_context

/-- Sign extension `ChangeInt32ToIntPtr`; the value is kept. -/
def ChangeInt32ToIntPtr (value : Int) : Int := value

/-- Modelled from the spec: `CodeStubAssembler::IsValidPositiveSmi` is defined
outside the two source files; per the spec it tells whether the value can be
represented as the engine's non-negative compact integer. -/
def IsValidPositiveSmi (kSmiMaxValue : Int) (value : Int) : Bool :=
  decide (0 ≤ value ∧ value ≤ kSmiMaxValue)

/-- Tagging `SmiFromInt32` of a value that fits; the value is kept. -/
def SmiFromInt32 (value : Int) : Int := value

/-- Untagging `SmiToInt32`.  The operand went through `UncheckedCast<Smi>`;
for an operand that is no Smi the result is not specified and is 0 here. -/
def SmiToInt32 : Object → Int
  | .Smi v => v
  | _ => 0

/-- CallRuntime and TailCallRuntime: run the runtime function on the instance. -/
def CallRuntime (env : WasmEnv) (call : RuntimeCall) (inst : WasmInstanceObject) :
    RuntimeResult × WasmInstanceObject := env.runtime call inst

/-- The builtin `WasmMemoryGrow`. -/
def WasmMemoryGrow (env : WasmEnv) (frame : Frame) (num_pages : Int) : BuiltinRun :=
  let num_pages_fits_in_smi := IsValidPositiveSmi env.kSmiMaxValue (ChangeInt32ToIntPtr num_pages)
  if !num_pages_fits_in_smi then
    /- BIND(&num_pages_out_of_range) -/
    { exit := .ReturnRaw (-1), wasm_instance := frame.wasm_instance, calls := [] }
  else
    let num_pages_smi := SmiFromInt32 num_pages
    let inst := LoadInstanceFromFrame frame
    let context := LoadContextFromInstance inst
    let call := RuntimeCall.kWasmMemoryGrow context num_pages_smi
    match CallRuntime env call inst with
    | (.value ret_smi, inst') =>
      { exit := .ReturnRaw (SmiToInt32 ret_smi), wasm_instance := inst', calls := [call] }
    | (.exception message_id, inst') =>
      { exit := .Unwind message_id, wasm_instance := inst', calls := [call] }

/-- The builtin `WasmTableGet`. -/
def WasmTableGet (env : WasmEnv) (frame : Frame) (table_index : Int) (entry_index : Int) :
    BuiltinRun :=
  let inst := LoadInstanceFromFrame frame
  let context := LoadContextFromInstance inst
  let entry_index_fits_in_smi :=
    IsValidPositiveSmi env.kSmiMaxValue (ChangeInt32ToIntPtr entry_index)
  if !entry_index_fits_in_smi then
    /- BIND(&entry_index_out_of_range) -/
    let message_id := env.TrapReasonToMessageId .kTrapTableOutOfBounds
    let call := RuntimeCall.kThrowWasmError context message_id
    let r := CallRuntime env call inst
    { exit := .TailCallRuntime r.1, wasm_instance := r.2, calls := [call] }
  else
    let entry_index_smi := SmiFromInt32 entry_index
    let table_index_smi := table_index
    let call := RuntimeCall.kWasmFunctionTableGet context table_index_smi entry_index_smi
    let r := CallRuntime env call inst
    { exit := .TailCallRuntime r.1, wasm_instance := r.2, calls := [call] }

/-- The builtin `WasmTableSet`. -/
def WasmTableSet (env : WasmEnv) (frame : Frame) (table_index : Int) (entry_index : Int)
    (value : Object) : BuiltinRun :=
  let inst := LoadInstanceFromFrame frame
  let context := LoadContextFromInstance inst
  let entry_index_fits_in_smi :=
    IsValidPositiveSmi env.kSmiMaxValue (ChangeInt32ToIntPtr entry_index)
  if !entry_index_fits_in_smi then
    /- BIND(&entry_index_out_of_range) -/
    let message_id := env.TrapReasonToMessageId .kTrapTableOutOfBounds
    let call := RuntimeCall.kThrowWasmError context message_id
    let r := CallRuntime env call inst
    { exit := .TailCallRuntime r.1, wasm_instance := r.2, calls := [call] }
  else
    let entry_index_smi := SmiFromInt32 entry_index
    let table_index_smi := table_index
    let call := RuntimeCall.kWasmFunctionTableSet context table_index_smi entry_index_smi value
    let r := CallRuntime env call inst
    { exit := .TailCallRuntime r.1, wasm_instance := r.2, calls := [call] }

/-- Modelled from the spec: the runtime function behind `kThrowWasmError` is
defined outside the two source files; it raises the error with the message id
it is given and touches nothing. -/
def Runtime_ThrowWasmError (inst : WasmInstanceObject) (message_id : Int) :
    RuntimeResult × WasmInstanceObject := (.exception message_id, inst)

/-- Modelled from the spec: the table-get operation behind
`kWasmFunctionTableGet` is defined outside the two source files.  Per the spec
it re-validates the entry index against the true current length of the table and
traps with the table-out-of-range reason on failure.  The spec says nothing
about a table index that names no table, for which the result is `none`. -/
def Runtime_WasmFunctionTableGet (TrapReasonToMessageId : TrapReason → Int)
    (inst : WasmInstanceObject) (table_index entry_index : Int) :
    Option (RuntimeResult × WasmInstanceObject) :=
  if table_index < 0 then none
  else
    match inst.tables[table_index.toNat]? with
    | none => none
    | some table =>
      if 0 ≤ entry_index ∧ entry_index < table.length then
        some (.value (table.getD entry_index.toNat .Undefined), inst)
      else some (.exception (TrapReasonToMessageId .kTrapTableOutOfBounds), inst)

/-- Modelled from the spec: the table-set operation behind
`kWasmFunctionTableSet`, the counterpart of the table-get operation; on success
it stores the value at the entry index. -/
def Runtime_WasmFunctionTableSet (TrapReasonToMessageId : TrapReason → Int)
    (inst : WasmInstanceObject) (table_index entry_index : Int) (value : Object) :
    Option (RuntimeResult × WasmInstanceObject) :=
  if table_index < 0 then none
  else
    match inst.tables[table_index.toNat]? with
    | none => none
    | some table =>
      if 0 ≤ entry_index ∧ entry_index < table.length then
        let table' := table.set entry_index.toNat value
        some (.value .Undefined, { inst with tables := inst.tables.set table_index.toNat table' })
      else some (.exception (TrapReasonToMessageId .kTrapTableOutOfBounds), inst)

/-- The runtime functions agree with the spec on the three calls the table
builtins make. -/
def TableRuntimeContract (env : WasmEnv) : Prop :=
  (∀ context message_id inst,
    env.runtime (.kThrowWasmError context message_id) inst =
      Runtime_ThrowWasmError inst message_id) ∧
  (∀ context table_index entry_index inst r,
    Runtime_WasmFunctionTableGet env.TrapReasonToMessageId inst table_index entry_index =
      some r →
    env.runtime (.kWasmFunctionTableGet context table_index entry_index) inst = r) ∧
  (∀ context table_index entry_index value inst r,
    Runtime_WasmFunctionTableSet env.TrapReasonToMessageId inst table_index entry_index value =
      some r →
    env.runtime (.kWasmFunctionTableSet context table_index entry_index value) inst = r)

/-- The value is the floating-point zero with the sign bit set, -0.0. -/
def isNegativeZero (T : CType) (x : Nat) : Bool := T.eq x 0 && signbit T x

/-- The value is the floating-point zero with the sign bit clear, +0.0. -/
def isPositiveZero (T : CType) (x : Nat) : Bool := T.eq x 0 && !signbit T x

/-! ## Examples used as witnesses -/

/-- Build constants of a 64-bit build with pointer compression. -/
def exampleConfig : BuildConfig := { COMPRESS_POINTERS_BOOL := true, kTaggedSize := 4 }

/-- A shared one-byte buffer and a `Uint8Array` of length 1 over it. -/
def shortIsolate : Isolate :=
  { heap := [.JSArrayBuffer { backing_store := [7], is_shared := true, was_detached := false },
             .JSTypedArray { type := .kExternalUint8Array, buffer := 0, byte_offset := 0,
                             byte_length := 1, length := 1 }]
    trace := [] }

/-- An `Int8Array` of length 3 at byte offset 1 of a four-byte buffer that is not shared. -/
def int8Buffer : JSArrayBuffer :=
  { backing_store := [9, 3, 255, 1], is_shared := false, was_detached := false }

/-- The view over `int8Buffer`. -/
def int8View : JSTypedArray :=
  { type := .kExternalInt8Array, buffer := 0, byte_offset := 1, byte_length := 3, length := 3 }

/-- The heap that holds `int8Buffer` and `int8View`. -/
def int8Isolate : Isolate :=
  { heap := [.JSArrayBuffer int8Buffer, .JSTypedArray int8View], trace := [] }

/-- The doubles NaN, 1.0, -0.0, 0.0, -1.0 as bit patterns. -/
def float64Example : List Nat :=
  [0x7FF8000000000000, 0x3FF0000000000000, 0x8000000000000000, 0, 0xBFF0000000000000]

/-- The doubles -1.0, -0.0, 0.0, 1.0, NaN as bit patterns. -/
def float64Sorted : List Nat :=
  [0xBFF0000000000000, 0x8000000000000000, 0, 0x3FF0000000000000, 0x7FF8000000000000]

/-- A buffer that holds `float64Example`. -/
def float64Buffer : JSArrayBuffer :=
  { backing_store := writeElements .double float64Example, is_shared := false,
    was_detached := false }

/-- A `Float64Array` of length 5 over `float64Buffer`. -/
def float64View : JSTypedArray :=
  { type := .kExternalFloat64Array, buffer := 0, byte_offset := 0, byte_length := 40,
    length := 5 }

/-- The heap that holds `float64Buffer` and `float64View`. -/
def float64Isolate : Isolate :=
  { heap := [.JSArrayBuffer float64Buffer, .JSTypedArray float64View], trace := [] }

/-- The floats NaN, 1.0, -0.0, 0.0, -1.0 as bit patterns. -/
def float32Example : List Nat := [0x7FC00000, 0x3F800000, 0x80000000, 0, 0xBF800000]

/-- The floats -1.0, -0.0, 0.0, 1.0, NaN as bit patterns. -/
def float32Sorted : List Nat := [0xBF800000, 0x80000000, 0, 0x3F800000, 0x7FC00000]

/-- A shared buffer that holds `float32Example`. -/
def float32Buffer : JSArrayBuffer :=
  { backing_store := writeElements .float float32Example, is_shared := true,
    was_detached := false }

/-- A `Float32Array` of length 5 over `float32Buffer`. -/
def float32View : JSTypedArray :=
  { type := .kExternalFloat32Array, buffer := 0, byte_offset := 0, byte_length := 20,
    length := 5 }

/-- The heap that holds `float32Buffer` and `float32View`. -/
def float32Isolate : Isolate :=
  { heap := [.JSArrayBuffer float32Buffer, .JSTypedArray float32View], trace := [] }

/-- A shared buffer of 2^31 bytes, one more than `INT_MAX`. -/
def hugeBuffer : JSArrayBuffer :=
  { backing_store := List.replicate (2 ^ 31) 0, is_shared := true, was_detached := false }

/-- A `Uint32Array` of 2^29 elements over all of `hugeBuffer`. -/
def hugeView : JSTypedArray :=
  { type := .kExternalUint32Array, buffer := 0, byte_offset := 0, byte_length := 2 ^ 31,
    length := 2 ^ 29 }

/-- The heap that holds `hugeBuffer` and `hugeView`. -/
def hugeIsolate : Isolate :=
  { heap := [.JSArrayBuffer hugeBuffer, .JSTypedArray hugeView], trace := [] }

/-- A shared buffer of four bytes. -/
def sharedBuffer : JSArrayBuffer :=
  { backing_store := [9, 3, 255, 1], is_shared := true, was_detached := false }

/-- The heap that holds `sharedBuffer` and the `Int8Array` `int8View` over it. -/
def sharedIsolate : Isolate :=
  { heap := [.JSArrayBuffer sharedBuffer, .JSTypedArray int8View], trace := [] }

/-- Message ids for the examples, one for each trap reason. -/
def exampleMessageId : TrapReason → Int
  | .kTrapTableOutOfBounds => 300
  | .other index => 301 + index

/-- Runtime functions for the examples: the table operations and the throw of
the spec, and a memory growth that answers with the page count it was given. -/
def exampleRuntime : RuntimeCall → WasmInstanceObject → RuntimeResult × WasmInstanceObject
  | .kWasmMemoryGrow _ num_pages, inst => (.value (.Smi num_pages), inst)
  | .kWasmFunctionTableGet _ table_index entry_index, inst =>
    (Runtime_WasmFunctionTableGet exampleMessageId inst table_index entry_index).getD
      (.exception 0, inst)
  | .kWasmFunctionTableSet _ table_index entry_index value, inst =>
    (Runtime_WasmFunctionTableSet exampleMessageId inst table_index entry_index value).getD
      (.exception 0, inst)
  | .kThrowWasmError _ message_id, inst => Runtime_ThrowWasmError inst message_id

/-- Collaborators for the examples, with 31-bit Smis. -/
def exampleEnv : WasmEnv :=
  { kSmiMaxValue := 2 ^ 30 - 1, TrapReasonToMessageId := exampleMessageId,
    runtime := exampleRuntime }

/-- A frame whose instance has one table with three entries. -/
def exampleFrame : Frame :=
  { wasm_instance := { native_context := 5, tables := [[.Smi 10, .Smi 11, .Smi 12]] } }

/-- A target of eight zero elements. -/
def exampleTarget : List Nat := [0, 0, 0, 0, 0, 0, 0, 0]

/-- A source whose element `i` is `i + 1`. -/
def exampleSource (i : Nat) : Nat := i + 1

/-- The call with target, source, length 5 and target offset 2. -/
def exampleCopyArgs : Arguments (List Nat) (Nat → Nat) Int :=
  { target := exampleTarget, source := exampleSource, numbers := [5, 2] }

/-! ## Basic facts about the comparator -/

theorem magnitude_lt (T : CType) (x : Nat) : magnitude T x < 2 ^ (T.bits - 1) :=
  Nat.mod_lt _ (Nat.pos_pow_of_pos _ (by decide))

theorem CompareNum_iff_sortKey (T : CType) (x y : Nat) :
    CompareNum T x y = true ↔ sortKey T x < sortKey T y := by
  have hx := magnitude_lt T x
  have hy := magnitude_lt T y
  unfold CompareNum sortKey CType.gt CType.lt CType.eq ordinal
  have h0 : magnitude T 0 = 0 := by simp [magnitude]
  have hs0 : signbit T 0 = false := by simp [signbit]
  have hn0 : isnan T 0 = false := by simp [isnan, h0]
  generalize 2 ^ (T.bits - 1) = P at hx hy ⊢
  cases hI : T.is_integral
  · simp only [h0, hs0, hn0]
    cases hnx : isnan T x <;> cases hny : isnan T y <;> cases hsx : signbit T x <;>
      cases hsy : signbit T y <;> simp <;> omega
  · simp


theorem swo_of_key (comp : Nat → Nat → Bool) (key : Nat → Int)
    (h : ∀ x y, comp x y = true ↔ key x < key y) : StrictWeakOrdering comp := by
  have hf : ∀ x y, comp x y = false ↔ key y ≤ key x := by
    intro x y
    rw [← Bool.not_eq_true, h]
    exact not_lt
  refine ⟨?_, ?_, ?_⟩
  · intro x
    rw [hf]
  · intro x y z h1 h2
    rw [h] at h1 h2 ⊢
    omega
  · intro x y z h1 h2 h3 h4
    simp only [hf] at h1 h2 h3 h4 ⊢
    constructor <;> omega

theorem CompareNum_swo (T : CType) : StrictWeakOrdering (CompareNum T) :=
  swo_of_key _ (sortKey T) (CompareNum_iff_sortKey T)

theorem lt_iff_sortKey (T : CType) (hT : T.is_integral = true) (x y : Nat) :
    T.lt x y = true ↔ sortKey T x < sortKey T y := by
  simp [CType.lt, sortKey, hT]

theorem lt_swo (T : CType) (hT : T.is_integral = true) : StrictWeakOrdering T.lt :=
  swo_of_key _ (sortKey T) (lt_iff_sortKey T hT)

theorem swo_total (comp : Nat → Nat → Bool) (h : StrictWeakOrdering comp) (a b : Nat) :
    comp b a = false ∨ comp a b = false := by
  cases hba : comp b a
  · exact Or.inl rfl
  · right
    cases hab : comp a b
    · rfl
    · have := h.trans a b a hab hba
      rw [h.irrefl] at this
      exact absurd this (by decide)

theorem swo_neg_trans (comp : Nat → Nat → Bool) (h : StrictWeakOrdering comp) (a b c : Nat)
    (hab : comp b a = false) (hbc : comp c b = false) : comp c a = false := by
  cases hca : comp c a
  · rfl
  · exfalso
    cases hab' : comp a b
    · cases hbc' : comp b c
      · have := (h.incomp_trans a b c hab' hab hbc' hbc).2
        rw [hca] at this
        exact absurd this (by decide)
      · have := h.trans b c a hbc' hca
        rw [hab] at this
        exact absurd this (by decide)
    · have := h.trans c a b hca hab'
      rw [hbc] at this
      exact absurd this (by decide)

theorem insertionSort_contract : StdSortContract insertionSort := by
  intro comp xs h
  haveI : IsTotal Nat (fun a b => comp b a = false) := ⟨fun a b => swo_total comp h a b⟩
  haveI : IsTrans Nat (fun a b => comp b a = false) :=
    ⟨fun a b c hab hbc => swo_neg_trans comp h a b c hab hbc⟩
  exact ⟨List.perm_insertionSort _ xs, List.sorted_insertionSort _ xs⟩


/-! ## Raw memory lemmas -/

theorem storeBytes_length (n x : Nat) : (storeBytes n x).length = n := by
  induction n generalizing x with
  | zero => rfl
  | succ n ih => simp [storeBytes, ih]

theorem loadBytes_lt (bs : List Byte) : loadBytes bs < 256 ^ bs.length := by
  induction bs with
  | nil => simp [loadBytes]
  | cons b bs ih =>
    have hb := b.isLt
    simp only [loadBytes, List.length_cons, pow_succ]
    omega

theorem loadBytes_storeBytes (n x : Nat) (h : x < 256 ^ n) :
    loadBytes (storeBytes n x) = x := by
  induction n generalizing x with
  | zero =>
    simp at h
    simp [storeBytes, loadBytes, h]
  | succ n ih =>
    have h2 : x / 256 < 256 ^ n := by
      rw [Nat.div_lt_iff_lt_mul (by decide)]
      rw [pow_succ] at h
      exact h
    simp only [storeBytes, loadBytes, ih _ h2]
    omega

theorem readElements_length (T : CType) (n : Nat) (mem : List Byte) :
    (readElements T n mem).length = n := by
  induction n generalizing mem with
  | zero => rfl
  | succ n ih => simp [readElements, ih]

theorem writeElements_length (T : CType) (xs : List Nat) :
    (writeElements T xs).length = xs.length * T.sizeof := by
  induction xs with
  | nil => simp [writeElements]
  | cons x xs ih =>
    simp only [writeElements, List.length_append, storeBytes_length, ih, List.length_cons]
    ring

theorem readElements_lt (T : CType) (n : Nat) (mem : List Byte) :
    ∀ e ∈ readElements T n mem, e < 256 ^ T.sizeof := by
  induction n generalizing mem with
  | zero => simp [readElements]
  | succ n ih =>
    intro e he
    simp only [readElements, List.mem_cons] at he
    rcases he with rfl | he
    · refine lt_of_lt_of_le (loadBytes_lt _) ?_
      apply Nat.pow_le_pow_right (by decide)
      simp
    · exact ih _ e he

theorem readElements_append (T : CType) (n : Nat) (a b : List Byte)
    (h : n * T.sizeof ≤ a.length) : readElements T n (a ++ b) = readElements T n a := by
  induction n generalizing a with
  | zero => rfl
  | succ n ih =>
    have h1 : T.sizeof ≤ a.length := by
      have : (n + 1) * T.sizeof = n * T.sizeof + T.sizeof := by ring
      omega
    have h2 : n * T.sizeof ≤ (a.drop T.sizeof).length := by
      have : (n + 1) * T.sizeof = n * T.sizeof + T.sizeof := by ring
      simp only [List.length_drop]
      omega
    simp only [readElements, List.take_append_of_le_length h1,
      List.drop_append_of_le_length h1, ih _ h2]

theorem readElements_writeElements (T : CType) (xs : List Nat) (rest : List Byte)
    (h : ∀ x ∈ xs, x < 256 ^ T.sizeof) :
    readElements T xs.length (writeElements T xs ++ rest) = xs := by
  induction xs with
  | nil => rfl
  | cons x xs ih =>
    have hx : x < 256 ^ T.sizeof := h x (List.mem_cons_self _ _)
    have hxs : ∀ y ∈ xs, y < 256 ^ T.sizeof := fun y hy => h y (List.mem_cons_of_mem _ hy)
    have hl : T.sizeof ≤ (storeBytes T.sizeof x).length := by simp [storeBytes_length]
    simp only [List.length_cons, readElements, writeElements, List.append_assoc]
    rw [List.take_append_of_le_length hl, List.drop_append_of_le_length hl]
    rw [List.take_of_length_le (by simp [storeBytes_length]),
      List.drop_of_length_le (by simp [storeBytes_length]), loadBytes_storeBytes _ _ hx]
    simp only [List.nil_append]
    rw [ih hxs]


/-! ## Sorting lemmas -/

theorem is_integral_ctype (type : ExternalArrayType)
    (h : ¬ (type = .kExternalFloat64Array ∨ type = .kExternalFloat32Array)) :
    type.ctype.is_integral = true := by
  cases type <;> simp_all [ExternalArrayType.ctype, CType.is_integral]

theorem comparator_iff_sortKey (type : ExternalArrayType) (x y : Nat) :
    type.comparator x y = true ↔ sortKey type.ctype x < sortKey type.ctype y := by
  unfold ExternalArrayType.comparator
  split
  · exact CompareNum_iff_sortKey _ x y
  · next h => exact lt_iff_sortKey _ (is_integral_ctype type h) x y

theorem comparator_swo (type : ExternalArrayType) : StrictWeakOrdering type.comparator :=
  swo_of_key _ (sortKey type.ctype) (comparator_iff_sortKey type)

theorem TYPED_ARRAY_SORT_eq (std_sort : StdSort) (cfg : BuildConfig) (type : ExternalArrayType)
    (data : List Byte) (length : Nat) :
    TYPED_ARRAY_SORT std_sort cfg type data length =
      sortRange std_sort type.ctype type.comparator data length := by
  unfold TYPED_ARRAY_SORT ExternalArrayType.comparator
  split <;> simp

theorem pairwise_comp_iff_sorted_key (comp : Nat → Nat → Bool) (key : Nat → Int)
    (h : ∀ x y, comp x y = true ↔ key x < key y) (l : List Nat) :
    l.Pairwise (fun a b => comp b a = false) ↔ (l.map key).Sorted (· ≤ ·) := by
  unfold List.Sorted
  rw [List.pairwise_map]
  apply List.Pairwise.iff
  intro a b
  rw [← Bool.not_eq_true, h]
  exact not_lt

theorem sorted_perm_map_key_eq (comp : Nat → Nat → Bool) (key : Nat → Int)
    (h : ∀ x y, comp x y = true ↔ key x < key y) (l₁ l₂ : List Nat) (hp : l₁.Perm l₂)
    (h₁ : l₁.Pairwise (fun a b => comp b a = false))
    (h₂ : l₂.Pairwise (fun a b => comp b a = false)) : l₁.map key = l₂.map key :=
  List.eq_of_perm_of_sorted (hp.map key)
    ((pairwise_comp_iff_sorted_key comp key h l₁).1 h₁)
    ((pairwise_comp_iff_sorted_key comp key h l₂).1 h₂)

theorem forall₂_of_map_eq (R : Nat → Nat → Prop) (key : Nat → Int) :
    ∀ (l₁ l₂ : List Nat), l₁.map key = l₂.map key →
      (∀ a ∈ l₁, ∀ b ∈ l₂, key a = key b → R a b) → List.Forall₂ R l₁ l₂ := by
  intro l₁
  induction l₁ with
  | nil =>
    intro l₂ h _
    cases l₂ with
    | nil => exact List.Forall₂.nil
    | cons b l₂ => simp at h
  | cons a l₁ ih =>
    intro l₂ h hR
    cases l₂ with
    | nil => simp at h
    | cons b l₂ =>
      simp only [List.map_cons, List.cons.injEq] at h
      refine List.Forall₂.cons (hR a (List.mem_cons_self _ _) b (List.mem_cons_self _ _) h.1) ?_
      exact ih l₂ h.2 (fun x hx y hy hxy =>
        hR x (List.mem_cons_of_mem _ hx) y (List.mem_cons_of_mem _ hy) hxy)

/-! ## The two paths of the sort -/

theorem nonshared_store_eq (std_sort : StdSort) (cfg : BuildConfig) (array : JSTypedArray)
    (buffer : JSArrayBuffer) (hv : array.Valid buffer) :
    buffer.backing_store.take array.byte_offset ++
        TYPED_ARRAY_SORT std_sort cfg array.type (array.DataPtr buffer) array.length =
      sortedStore std_sort array buffer := by
  rw [TYPED_ARRAY_SORT_eq]
  unfold sortRange sortedStore JSTypedArray.elements JSTypedArray.DataPtr
  rw [List.drop_drop, hv.1]

theorem shared_store_eq (std_sort : StdSort) (hsort : StdSortContract std_sort)
    (cfg : BuildConfig) (array : JSTypedArray) (buffer : JSArrayBuffer)
    (hv : array.Valid buffer) :
    buffer.backing_store.take array.byte_offset ++
        memcpy (array.DataPtr buffer)
          (TYPED_ARRAY_SORT std_sort cfg array.type
            (memcpy (List.replicate array.byte_length 0) (array.DataPtr buffer)
              array.byte_length) array.length) array.byte_length =
      sortedStore std_sort array buffer := by
  have hlen : array.byte_length ≤ (array.DataPtr buffer).length := by
    have := hv.2
    simp only [JSTypedArray.DataPtr, List.length_drop]
    omega
  have hscratch : memcpy (List.replicate array.byte_length 0) (array.DataPtr buffer)
      array.byte_length = (array.DataPtr buffer).take array.byte_length := by
    simp [memcpy]
  have hread : readElements array.type.ctype array.length
      ((array.DataPtr buffer).take array.byte_length) = array.elements buffer := by
    unfold JSTypedArray.elements
    conv_rhs => rw [← List.take_append_drop array.byte_length (array.DataPtr buffer)]
    rw [readElements_append]
    rw [List.length_take, ← hv.1]
    omega
  have hsl : (std_sort array.type.comparator (array.elements buffer)).length = array.length := by
    rw [((hsort _ _ (comparator_swo array.type)).1).length_eq]
    exact readElements_length _ _ _
  rw [hscratch, TYPED_ARRAY_SORT_eq]
  unfold sortRange
  rw [hread]
  have hdrop : ((array.DataPtr buffer).take array.byte_length).drop
      (array.length * array.type.ctype.sizeof) = [] := by
    apply List.drop_of_length_le
    rw [List.length_take, ← hv.1]
    omega
  rw [hdrop, List.append_nil]
  have htake : (writeElements array.type.ctype
      (std_sort array.type.comparator (array.elements buffer))).take array.byte_length =
      writeElements array.type.ctype (std_sort array.type.comparator (array.elements buffer)) :=
    List.take_of_length_le (by rw [writeElements_length, hsl, hv.1])
  unfold memcpy sortedStore
  rw [htake]
  unfold JSTypedArray.DataPtr
  rw [List.drop_drop]

theorem elements_sortedStore (std_sort : StdSort) (hsort : StdSortContract std_sort)
    (array : JSTypedArray) (buffer : JSArrayBuffer) (hv : array.Valid buffer) :
    array.elements { buffer with backing_store := sortedStore std_sort array buffer } =
      std_sort array.type.comparator (array.elements buffer) := by
  have hp := (hsort array.type.comparator (array.elements buffer) (comparator_swo array.type)).1
  have hsl : (std_sort array.type.comparator (array.elements buffer)).length = array.length := by
    rw [hp.length_eq]
    exact readElements_length _ _ _
  have hlt : ∀ x ∈ std_sort array.type.comparator (array.elements buffer),
      x < 256 ^ array.type.ctype.sizeof := by
    intro x hx
    exact readElements_lt _ _ _ x (hp.subset hx)
  have hoff : (buffer.backing_store.take array.byte_offset).length = array.byte_offset := by
    have := hv.2
    rw [List.length_take]
    omega
  unfold JSTypedArray.elements JSTypedArray.DataPtr sortedStore
  simp only
  rw [List.drop_left' hoff]
  conv_lhs => rw [← hsl]
  exact readElements_writeElements _ _ _ hlt

theorem sortedStore_length (std_sort : StdSort) (hsort : StdSortContract std_sort)
    (array : JSTypedArray) (buffer : JSArrayBuffer) (hv : array.Valid buffer) :
    (sortedStore std_sort array buffer).length = buffer.backing_store.length := by
  have hp := (hsort array.type.comparator (array.elements buffer) (comparator_swo array.type)).1
  have hsl : (std_sort array.type.comparator (array.elements buffer)).length = array.length := by
    rw [hp.length_eq]
    exact readElements_length _ _ _
  have h1 := hv.1
  have h2 := hv.2
  unfold sortedStore
  simp only [List.length_append, List.length_take, List.length_drop, writeElements_length, hsl]
  omega


theorem pairwise_of_length_le_one (R : Nat → Nat → Prop) (l : List Nat) (h : l.length ≤ 1) :
    l.Pairwise R := by
  match l, h with
  | [], _ => exact List.Pairwise.nil
  | [a], _ => exact List.pairwise_singleton R a
  | _ :: _ :: _, h => simp at h

theorem heap_get_set (heap : List HeapObject) (i : Nat) (o o' : HeapObject)
    (h : heap[i]? = some o) : (heap.set i o')[i]? = some o' := by
  have hi : i < heap.length := (List.getElem?_eq_some.1 h).1
  simp [List.getElem?_set_self, hi]

theorem heap_get_set_ne (heap : List HeapObject) (i j : Nat) (o' : HeapObject) (h : i ≠ j) :
    (heap.set i o')[j]? = heap[j]? := by
  simp [List.getElem?_set_ne h]

theorem view_ne_buffer (heap : List HeapObject) (p : Nat) (array : JSTypedArray)
    (buffer : JSArrayBuffer) (harr : heap[p]? = some (.JSTypedArray array))
    (hbuf : heap[array.buffer]? = some (.JSArrayBuffer buffer)) : array.buffer ≠ p := by
  intro h
  rw [h, harr] at hbuf
  simp at hbuf

theorem sortFast_short (std_sort : StdSort) (cfg : BuildConfig) (isolate : Isolate) (p : Nat)
    (array : JSTypedArray) (harr : isolate.heap[p]? = some (.JSTypedArray array))
    (hlen : array.length ≤ 1) :
    Runtime_TypedArraySortFast std_sort cfg isolate [Object.HeapPointer p] =
      .ok (Object.HeapPointer p) isolate := by
  simp [Runtime_TypedArraySortFast, harr, hlen]

theorem sortFast_nonshared (std_sort : StdSort) (cfg : BuildConfig) (isolate : Isolate) (p : Nat)
    (array : JSTypedArray) (buffer : JSArrayBuffer)
    (harr : isolate.heap[p]? = some (.JSTypedArray array))
    (hbuf : isolate.heap[array.buffer]? = some (.JSArrayBuffer buffer))
    (hv : array.Valid buffer) (hlen : 1 < array.length) (hsh : buffer.is_shared = false) :
    Runtime_TypedArraySortFast std_sort cfg isolate [Object.HeapPointer p] =
      .ok (Object.HeapPointer p)
        { heap := isolate.heap.set array.buffer
            (.JSArrayBuffer { buffer with backing_store := sortedStore std_sort array buffer })
          trace := isolate.trace ++
            [.sort_store array.buffer array.byte_offset array.length] } := by
  have h := nonshared_store_eq std_sort cfg array buffer hv
  simp [Runtime_TypedArraySortFast, harr, hbuf, not_le.2 hlen, hsh, h]

theorem sortFast_shared (std_sort : StdSort) (hsort : StdSortContract std_sort)
    (cfg : BuildConfig) (isolate : Isolate) (p : Nat)
    (array : JSTypedArray) (buffer : JSArrayBuffer)
    (harr : isolate.heap[p]? = some (.JSTypedArray array))
    (hbuf : isolate.heap[array.buffer]? = some (.JSArrayBuffer buffer))
    (hv : array.Valid buffer) (hlen : 1 < array.length) (hsh : buffer.is_shared = true)
    (hbytes : array.byte_length ≤ INT_MAX) :
    Runtime_TypedArraySortFast std_sort cfg isolate [Object.HeapPointer p] =
      .ok (Object.HeapPointer p)
        { heap := isolate.heap.set array.buffer
            (.JSArrayBuffer { buffer with backing_store := sortedStore std_sort array buffer })
          trace := isolate.trace ++
            [.NewByteArray array.byte_length,
             .memcpy_from_store array.buffer array.byte_offset array.byte_length,
             .sort_scratch array.length,
             .memcpy_to_store array.buffer array.byte_offset array.byte_length] } := by
  have h := shared_store_eq std_sort hsort cfg array buffer hv
  simp [Runtime_TypedArraySortFast, harr, hbuf, not_le.2 hlen, hsh, hbytes, h]

theorem sortFast_shared_abort (std_sort : StdSort) (cfg : BuildConfig) (isolate : Isolate)
    (p : Nat) (array : JSTypedArray) (buffer : JSArrayBuffer)
    (harr : isolate.heap[p]? = some (.JSTypedArray array))
    (hbuf : isolate.heap[array.buffer]? = some (.JSArrayBuffer buffer))
    (hlen : 1 < array.length) (hsh : buffer.is_shared = true)
    (hbytes : INT_MAX < array.byte_length) :
    Runtime_TypedArraySortFast std_sort cfg isolate [Object.HeapPointer p] = .check_failed := by
  simp [Runtime_TypedArraySortFast, harr, hbuf, not_le.2 hlen, hsh, not_le.2 hbytes]

theorem valid_sortedStore (std_sort : StdSort) (hsort : StdSortContract std_sort)
    (array : JSTypedArray) (buffer : JSArrayBuffer) (hv : array.Valid buffer) :
    array.Valid { buffer with backing_store := sortedStore std_sort array buffer } := by
  refine ⟨hv.1, ?_⟩
  simp only
  rw [sortedStore_length std_sort hsort array buffer hv]
  exact hv.2

/-- Every run of the sort that returns leaves the view in place over a buffer
with the same flags, holding a permutation of the old elements that is sorted
under the comparator of the kind. -/
theorem sortFast_ok_post (std_sort : StdSort) (hsort : StdSortContract std_sort)
    (cfg : BuildConfig) (isolate : Isolate) (p : Nat)
    (array : JSTypedArray) (buffer : JSArrayBuffer)
    (harr : isolate.heap[p]? = some (.JSTypedArray array))
    (hbuf : isolate.heap[array.buffer]? = some (.JSArrayBuffer buffer))
    (hv : array.Valid buffer) (v : Object) (isolate' : Isolate)
    (hrun : Runtime_TypedArraySortFast std_sort cfg isolate [Object.HeapPointer p] =
      .ok v isolate') :
    v = Object.HeapPointer p ∧ isolate'.heap[p]? = some (.JSTypedArray array) ∧
    ∃ buffer', isolate'.heap[array.buffer]? = some (.JSArrayBuffer buffer') ∧
      array.Valid buffer' ∧ buffer'.is_shared = buffer.is_shared ∧
      buffer'.backing_store.length = buffer.backing_store.length ∧
      (array.elements buffer').Perm (array.elements buffer) ∧
      (array.elements buffer').Pairwise (fun a b => array.type.comparator b a = false) := by
  have hne := view_ne_buffer isolate.heap p array buffer harr hbuf
  have hc := hsort array.type.comparator (array.elements buffer) (comparator_swo array.type)
  have hel := elements_sortedStore std_sort hsort array buffer hv
  by_cases hlen : array.length ≤ 1
  · rw [sortFast_short std_sort cfg isolate p array harr hlen] at hrun
    injection hrun with h1 h2
    subst h1 h2
    refine ⟨rfl, harr, buffer, hbuf, hv, rfl, rfl, List.Perm.refl _, ?_⟩
    apply pairwise_of_length_le_one
    unfold JSTypedArray.elements
    rw [readElements_length]
    exact hlen
  · have hlen' : 1 < array.length := not_le.1 hlen
    cases hsh : buffer.is_shared
    · rw [sortFast_nonshared std_sort cfg isolate p array buffer harr hbuf hv hlen' hsh] at hrun
      injection hrun with h1 h2
      subst h1 h2
      refine ⟨rfl, ?_, _, heap_get_set _ _ _ _ hbuf, valid_sortedStore std_sort hsort array buffer hv,
        hsh, sortedStore_length std_sort hsort array buffer hv, ?_, ?_⟩
      · simp only
        rw [heap_get_set_ne _ _ _ _ hne]
        exact harr
      · rw [hel]
        exact hc.1
      · rw [hel]
        exact hc.2
    · by_cases hbytes : array.byte_length ≤ INT_MAX
      · rw [sortFast_shared std_sort hsort cfg isolate p array buffer harr hbuf hv hlen' hsh
          hbytes] at hrun
        injection hrun with h1 h2
        subst h1 h2
        refine ⟨rfl, ?_, _, heap_get_set _ _ _ _ hbuf,
          valid_sortedStore std_sort hsort array buffer hv,
          hsh, sortedStore_length std_sort hsort array buffer hv, ?_, ?_⟩
        · simp only
          rw [heap_get_set_ne _ _ _ _ hne]
          exact harr
        · rw [hel]
          exact hc.1
        · rw [hel]
          exact hc.2
      · rw [sortFast_shared_abort std_sort cfg isolate p array buffer harr hbuf hlen' hsh
          (not_le.1 hbytes)] at hrun
        cases hrun


theorem sortFast_total (std_sort : StdSort) (hsort : StdSortContract std_sort)
    (cfg : BuildConfig) (isolate : Isolate) (p : Nat)
    (array : JSTypedArray) (buffer : JSArrayBuffer)
    (harr : isolate.heap[p]? = some (.JSTypedArray array))
    (hbuf : isolate.heap[array.buffer]? = some (.JSArrayBuffer buffer))
    (hv : array.Valid buffer)
    (hguard : buffer.is_shared = true → 1 < array.length → array.byte_length ≤ INT_MAX) :
    ∃ isolate', Runtime_TypedArraySortFast std_sort cfg isolate [Object.HeapPointer p] =
      .ok (Object.HeapPointer p) isolate' := by
  by_cases hlen : array.length ≤ 1
  · exact ⟨_, sortFast_short std_sort cfg isolate p array harr hlen⟩
  · have hlen' : 1 < array.length := not_le.1 hlen
    cases hsh : buffer.is_shared
    · exact ⟨_, sortFast_nonshared std_sort cfg isolate p array buffer harr hbuf hv hlen' hsh⟩
    · exact ⟨_, sortFast_shared std_sort hsort cfg isolate p array buffer harr hbuf hv hlen' hsh
        (hguard hsh hlen')⟩

theorem float64View_valid : float64View.Valid float64Buffer := by
  refine ⟨by decide, ?_⟩
  show 0 + 40 ≤ (writeElements .double float64Example).length
  rw [writeElements_length]
  decide

theorem float64View_elements : float64View.elements float64Buffer = float64Example := by
  have h := readElements_writeElements .double float64Example []
    (by decide)
  rw [List.append_nil] at h
  exact h

theorem float32View_valid : float32View.Valid float32Buffer := by
  refine ⟨by decide, ?_⟩
  show 0 + 20 ≤ (writeElements .float float32Example).length
  rw [writeElements_length]
  decide

theorem float32View_elements : float32View.elements float32Buffer = float32Example := by
  have h := readElements_writeElements .float float32Example []
    (by decide)
  rw [List.append_nil] at h
  exact h

/-- A sorted permutation of a list on which the order is total is the result of
every `std::sort` that meets the contract. -/
theorem std_sort_unique (std_sort : StdSort) (hsort : StdSortContract std_sort)
    (type : ExternalArrayType) (l target : List Nat) (hperm : target.Perm l)
    (hsorted : target.Pairwise (fun a b => type.comparator b a = false))
    (hinj : ∀ a ∈ l, ∀ b ∈ target, sortKey type.ctype a = sortKey type.ctype b → a = b) :
    std_sort type.comparator l = target := by
  have hc := hsort type.comparator l (comparator_swo type)
  have hk := sorted_perm_map_key_eq type.comparator (sortKey type.ctype)
    (comparator_iff_sortKey type) _ _ (hc.1.trans hperm.symm) hc.2 hsorted
  have hf := forall₂_of_map_eq Eq (sortKey type.ctype) _ _ hk
    (fun a ha b hb hab => hinj a (hc.1.subset ha) b hb hab)
  rw [List.forall₂_eq_eq_eq] at hf
  exact hf

theorem exampleEnv_contract : TableRuntimeContract exampleEnv := by
  refine ⟨?_, ?_, ?_⟩
  · intro context message_id inst
    rfl
  · intro context table_index entry_index inst r h
    show (Runtime_WasmFunctionTableGet exampleMessageId inst table_index entry_index).getD
      (.exception 0, inst) = r
    have h' : Runtime_WasmFunctionTableGet exampleMessageId inst table_index entry_index =
      some r := h
    rw [h']
    rfl
  · intro context table_index entry_index value inst r h
    show (Runtime_WasmFunctionTableSet exampleMessageId inst table_index entry_index value).getD
      (.exception 0, inst) = r
    have h' : Runtime_WasmFunctionTableSet exampleMessageId inst table_index entry_index value =
      some r := h
    rw [h']
    rfl

/-! ## The claims -/

/-- C10: `CompareNum` is a strict weak ordering on every element type.  For all
bit patterns `x`, `y`, `z` (NaNs, infinities and both zeros included) it is
irreflexive, asymmetric and transitive, incomparability is transitive, and two
values are incomparable exactly when they are equal integers, or both NaN, or
equal non-NaN numbers with the same sign bit. -/
theorem CompareNum_strict_weak_ordering (T : CType) :
    (∀ x, CompareNum T x x = false) ∧
    (∀ x y, CompareNum T x y = true → CompareNum T y x = false) ∧
    (∀ x y z, CompareNum T x y = true → CompareNum T y z = true → CompareNum T x z = true) ∧
    (∀ x y z, (CompareNum T x y = false ∧ CompareNum T y x = false) →
      (CompareNum T y z = false ∧ CompareNum T z y = false) →
      (CompareNum T x z = false ∧ CompareNum T z x = false)) ∧
    (∀ x y, (CompareNum T x y = false ∧ CompareNum T y x = false) ↔
      if T.is_integral then T.toInt x = T.toInt y
      else (isnan T x = true ∧ isnan T y = true) ∨
        (isnan T x = false ∧ isnan T y = false ∧ T.eq x y = true ∧
          signbit T x = signbit T y)) := by
  have hs := CompareNum_swo T
  have hf : ∀ x y, CompareNum T x y = false ↔ sortKey T y ≤ sortKey T x := by
    intro x y
    rw [← Bool.not_eq_true, CompareNum_iff_sortKey]
    exact not_lt
  refine ⟨hs.irrefl, ?_, hs.trans, ?_, ?_⟩
  · intro x y h
    rw [CompareNum_iff_sortKey] at h
    rw [hf]
    omega
  · intro x y z h1 h2
    exact hs.incomp_trans x y z h1.1 h1.2 h2.1 h2.2
  · intro x y
    rw [hf, hf]
    have hx := magnitude_lt T x
    have hy := magnitude_lt T y
    unfold sortKey CType.eq ordinal
    generalize 2 ^ (T.bits - 1) = P at hx hy ⊢
    cases hI : T.is_integral
    · cases hnx : isnan T x <;> cases hny : isnan T y <;> cases hsx : signbit T x <;>
        cases hsy : signbit T y <;> simp <;> omega
    · simp
      omega

/-- C9: for a view of length 0 or 1, of any element kind and over any buffer
(shared or not), the sort returns the same view and leaves the whole state as it
was: every byte of every backing store is unchanged, and no raw-memory effect
(no scratch allocation, no copy, no write) is recorded. -/
theorem sort_of_short_view_is_identity (std_sort : StdSort) (cfg : BuildConfig)
    (isolate : Isolate) (p : Nat) (array : JSTypedArray)
    (harr : isolate.heap[p]? = some (.JSTypedArray array)) (hlen : array.length ≤ 1) :
    Runtime_TypedArraySortFast std_sort cfg isolate [Object.HeapPointer p] =
      .ok (Object.HeapPointer p) isolate := by
  simp [Runtime_TypedArraySortFast, harr, hlen]

theorem sort_of_short_view_is_identity_witness :
    Runtime_TypedArraySortFast insertionSort exampleConfig shortIsolate [Object.HeapPointer 1] =
      .ok (Object.HeapPointer 1) shortIsolate :=
  sort_of_short_view_is_identity insertionSort exampleConfig shortIsolate 1
    { type := .kExternalUint8Array, buffer := 0, byte_offset := 0, byte_length := 1, length := 1 }
    rfl (by decide)

/-- C1: for every view over a buffer that is not shared, of any element kind and
any length, the sort returns the view, and the view then holds a permutation of
its original elements in which no element is less than one before it: for the
integer kinds the numeric values (signed kinds as signed, unsigned as unsigned)
are non-decreasing, for the float kinds `CompareNum` of a later element with an
earlier one is false.  This holds for every pair of positions, adjacent pairs
in particular. -/
theorem sort_nonshared_is_sorted_permutation (std_sort : StdSort)
    (hsort : StdSortContract std_sort) (cfg : BuildConfig) (isolate : Isolate) (p : Nat)
    (array : JSTypedArray) (buffer : JSArrayBuffer)
    (harr : isolate.heap[p]? = some (.JSTypedArray array))
    (hbuf : isolate.heap[array.buffer]? = some (.JSArrayBuffer buffer))
    (hv : array.Valid buffer) (hsh : buffer.is_shared = false) :
    ∃ isolate' buffer',
      Runtime_TypedArraySortFast std_sort cfg isolate [Object.HeapPointer p] =
        .ok (Object.HeapPointer p) isolate' ∧
      isolate'.heap[p]? = some (.JSTypedArray array) ∧
      isolate'.heap[array.buffer]? = some (.JSArrayBuffer buffer') ∧
      (array.elements buffer').Perm (array.elements buffer) ∧
      (array.type.ctype.is_integral = true →
        (array.elements buffer').Pairwise
          (fun a b => array.type.ctype.toInt a ≤ array.type.ctype.toInt b)) ∧
      (array.type.ctype.is_integral = false →
        (array.elements buffer').Pairwise
          (fun a b => CompareNum array.type.ctype b a = false)) := by
  obtain ⟨isolate', hrun⟩ := sortFast_total std_sort hsort cfg isolate p array buffer harr hbuf hv
    (fun h => by rw [hsh] at h; cases h)
  obtain ⟨_, harr', buffer', hbuf', _, _, _, hperm, hsorted⟩ :=
    sortFast_ok_post std_sort hsort cfg isolate p array buffer harr hbuf hv _ _ hrun
  refine ⟨isolate', buffer', hrun, harr', hbuf', hperm, ?_, ?_⟩
  · intro hI
    refine hsorted.imp ?_
    intro a b hab
    have h := (comparator_iff_sortKey array.type b a).not
    rw [Bool.not_eq_true] at h
    have h2 := h.1 hab
    simp only [sortKey, hI, if_true] at h2
    omega
  · intro hI
    refine hsorted.imp ?_
    intro a b hab
    have hfl : array.type = .kExternalFloat64Array ∨ array.type = .kExternalFloat32Array := by
      by_contra hcon
      rw [is_integral_ctype array.type hcon] at hI
      cases hI
    simpa [ExternalArrayType.comparator, hfl] using hab

theorem sort_nonshared_is_sorted_permutation_witness :
    ∃ isolate' buffer',
      Runtime_TypedArraySortFast insertionSort exampleConfig int8Isolate [Object.HeapPointer 1] =
        .ok (Object.HeapPointer 1) isolate' ∧
      isolate'.heap[1]? = some (.JSTypedArray int8View) ∧
      isolate'.heap[int8View.buffer]? = some (.JSArrayBuffer buffer') ∧
      (int8View.elements buffer').Perm (int8View.elements int8Buffer) ∧
      (int8View.type.ctype.is_integral = true →
        (int8View.elements buffer').Pairwise
          (fun a b => int8View.type.ctype.toInt a ≤ int8View.type.ctype.toInt b)) ∧
      (int8View.type.ctype.is_integral = false →
        (int8View.elements buffer').Pairwise
          (fun a b => CompareNum int8View.type.ctype b a = false)) :=
  sort_nonshared_is_sorted_permutation insertionSort insertionSort_contract exampleConfig
    int8Isolate 1 int8View int8Buffer rfl rfl ⟨by decide, by decide⟩ rfl


/-- C2: for every float-kind view (Float32 or Float64) the sort returns unless
the buffer is shared and longer than `INT_MAX` bytes, and after the sort every
earlier NaN is followed only by NaNs (so each NaN lies after each non-NaN,
+Infinity included), the non-NaN elements ascend numerically, and no +0.0 lies
before a -0.0.  For the comparator: `CompareNum(x, y)` is true exactly when
`x < y`, or `x` is -0.0 and `y` is +0.0, or `x` is not NaN and `y` is NaN.
Concretely the sort turns [NaN, 1.0, -0.0, 0.0, -1.0] into
[-1.0, -0.0, 0.0, 1.0, NaN], both for a `Float64Array` over a buffer that is not
shared and for a `Float32Array` over a shared one. -/
theorem float_sort_total_order (std_sort : StdSort) (hsort : StdSortContract std_sort)
    (cfg : BuildConfig) (isolate : Isolate) (p : Nat)
    (array : JSTypedArray) (buffer : JSArrayBuffer)
    (harr : isolate.heap[p]? = some (.JSTypedArray array))
    (hbuf : isolate.heap[array.buffer]? = some (.JSArrayBuffer buffer))
    (hv : array.Valid buffer)
    (hfloat : array.type = .kExternalFloat32Array ∨ array.type = .kExternalFloat64Array) :
    ((buffer.is_shared = true → 1 < array.length → array.byte_length ≤ INT_MAX) →
      ∃ isolate', Runtime_TypedArraySortFast std_sort cfg isolate [Object.HeapPointer p] =
        .ok (Object.HeapPointer p) isolate') ∧
    (∀ v isolate', Runtime_TypedArraySortFast std_sort cfg isolate [Object.HeapPointer p] =
        .ok v isolate' →
      ∃ buffer', isolate'.heap[array.buffer]? = some (.JSArrayBuffer buffer') ∧
        (array.elements buffer').Perm (array.elements buffer) ∧
        (array.elements buffer').Pairwise (fun a b =>
          (isnan array.type.ctype a = true → isnan array.type.ctype b = true) ∧
          (isnan array.type.ctype a = false → isnan array.type.ctype b = false →
            ordinal array.type.ctype a ≤ ordinal array.type.ctype b) ∧
          ¬ (isPositiveZero array.type.ctype a = true ∧
              isNegativeZero array.type.ctype b = true))) ∧
    (∀ x y, CompareNum array.type.ctype x y = true ↔
      (array.type.ctype.lt x y = true ∨
        (isNegativeZero array.type.ctype x = true ∧ isPositiveZero array.type.ctype y = true) ∨
        (isnan array.type.ctype x = false ∧ isnan array.type.ctype y = true))) ∧
    (∃ isolate' buffer',
      Runtime_TypedArraySortFast std_sort cfg float64Isolate [Object.HeapPointer 1] =
        .ok (Object.HeapPointer 1) isolate' ∧
      isolate'.heap[0]? = some (.JSArrayBuffer buffer') ∧
      float64View.elements buffer' = float64Sorted) ∧
    (∃ isolate' buffer',
      Runtime_TypedArraySortFast std_sort cfg float32Isolate [Object.HeapPointer 1] =
        .ok (Object.HeapPointer 1) isolate' ∧
      isolate'.heap[0]? = some (.JSArrayBuffer buffer') ∧
      float32View.elements buffer' = float32Sorted) := by
  have hI : array.type.ctype.is_integral = false := by
    rcases hfloat with h | h <;> rw [h] <;> rfl
  have hcmp : array.type.comparator = CompareNum array.type.ctype := by
    unfold ExternalArrayType.comparator
    rw [if_pos (hfloat.symm)]
  have h0 : magnitude array.type.ctype 0 = 0 := by simp [magnitude]
  have hs0 : signbit array.type.ctype 0 = false := by simp [signbit]
  have hn0 : isnan array.type.ctype 0 = false := by simp [isnan, h0]
  refine ⟨sortFast_total std_sort hsort cfg isolate p array buffer harr hbuf hv, ?_, ?_, ?_, ?_⟩
  · intro v isolate' hrun
    obtain ⟨_, _, buffer', hbuf', _, _, _, hperm, hsorted⟩ :=
      sortFast_ok_post std_sort hsort cfg isolate p array buffer harr hbuf hv _ _ hrun
    refine ⟨buffer', hbuf', hperm, hsorted.imp ?_⟩
    intro a b hab
    rw [hcmp, ← Bool.not_eq_true, CompareNum_iff_sortKey] at hab
    have ha := magnitude_lt array.type.ctype a
    have hb := magnitude_lt array.type.ctype b
    revert hab
    unfold sortKey isPositiveZero isNegativeZero CType.eq ordinal
    simp only [hI, h0, hs0, hn0]
    generalize 2 ^ (array.type.ctype.bits - 1) = P at ha hb ⊢
    cases hna : isnan array.type.ctype a <;> cases hnb : isnan array.type.ctype b <;>
      cases hsa : signbit array.type.ctype a <;> cases hsb : signbit array.type.ctype b <;>
      simp <;> omega
  · intro x y
    rw [CompareNum_iff_sortKey]
    have hx := magnitude_lt array.type.ctype x
    have hy := magnitude_lt array.type.ctype y
    unfold sortKey isPositiveZero isNegativeZero CType.lt CType.eq ordinal
    simp only [hI, h0, hs0, hn0]
    generalize 2 ^ (array.type.ctype.bits - 1) = P at hx hy ⊢
    cases hnx : isnan array.type.ctype x <;> cases hny : isnan array.type.ctype y <;>
      cases hsx : signbit array.type.ctype x <;> cases hsy : signbit array.type.ctype y <;>
      simp <;> omega
  · refine ⟨_, _, sortFast_nonshared std_sort cfg float64Isolate 1 float64View float64Buffer
      rfl rfl float64View_valid (by decide) rfl, heap_get_set _ _ _ _ rfl, ?_⟩
    rw [elements_sortedStore std_sort hsort float64View float64Buffer float64View_valid,
      float64View_elements]
    exact std_sort_unique std_sort hsort .kExternalFloat64Array float64Example float64Sorted
      (by decide) (by decide) (by decide)
  · refine ⟨_, _, sortFast_shared std_sort hsort cfg float32Isolate 1 float32View float32Buffer
      rfl rfl float32View_valid (by decide) rfl (by decide), heap_get_set _ _ _ _ rfl, ?_⟩
    rw [elements_sortedStore std_sort hsort float32View float32Buffer float32View_valid,
      float32View_elements]
    exact std_sort_unique std_sort hsort .kExternalFloat32Array float32Example float32Sorted
      (by decide) (by decide) (by decide)


theorem float_sort_total_order_witness :
    ∃ isolate', Runtime_TypedArraySortFast insertionSort exampleConfig float64Isolate
      [Object.HeapPointer 1] = .ok (Object.HeapPointer 1) isolate' :=
  (float_sort_total_order insertionSort insertionSort_contract exampleConfig float64Isolate 1
    float64View float64Buffer rfl rfl float64View_valid (Or.inr rfl)).1
    (fun h => absurd h (by decide))

/-- C7 as stated fails: for a shared `Uint32Array` of 2^29 elements over 2^31 bytes the sort
copies nothing and writes nothing back, it stops at `CHECK_LE(bytes, INT_MAX)`. -/
theorem sort_shared_huge_view_aborts :
    hugeView.Valid hugeBuffer ∧ hugeBuffer.is_shared = true ∧ 1 < hugeView.length ∧
    hugeIsolate.heap[1]? = some (.JSTypedArray hugeView) ∧
    hugeIsolate.heap[hugeView.buffer]? = some (.JSArrayBuffer hugeBuffer) ∧
    Runtime_TypedArraySortFast insertionSort exampleConfig hugeIsolate [Object.HeapPointer 1] =
      .check_failed := by
  refine ⟨⟨by decide, ?_⟩, rfl, by decide, rfl, rfl, ?_⟩
  · show 0 + 2 ^ 31 ≤ (List.replicate (2 ^ 31) (0 : Byte)).length
    rw [List.length_replicate]
    decide
  · exact sortFast_shared_abort insertionSort exampleConfig hugeIsolate 1 hugeView hugeBuffer
      rfl rfl (by decide) rfl (by decide)

/-- C7, amended: for every view of length > 1 over a shared backing store whose
byte length is at most `INT_MAX`, the sort allocates a scratch buffer of
`byte_length` bytes, copies exactly the `byte_length` bytes of the view into it,
sorts the scratch copy, and writes exactly those `byte_length` bytes back in one
bulk write.  The store keeps its length, the bytes before and behind the view
are unchanged, the view then shows a sorted permutation of the elements of the
snapshot, and the contents are those the in-place path produces on the same
initial contents. -/
theorem sort_shared_snapshot_and_writeback (std_sort : StdSort)
    (hsort : StdSortContract std_sort) (cfg : BuildConfig) (isolate : Isolate) (p : Nat)
    (array : JSTypedArray) (buffer : JSArrayBuffer)
    (harr : isolate.heap[p]? = some (.JSTypedArray array))
    (hbuf : isolate.heap[array.buffer]? = some (.JSArrayBuffer buffer))
    (hv : array.Valid buffer) (hsh : buffer.is_shared = true) (hlen : 1 < array.length)
    (hbytes : array.byte_length ≤ INT_MAX) :
    ∃ store,
      Runtime_TypedArraySortFast std_sort cfg isolate [Object.HeapPointer p] =
        .ok (Object.HeapPointer p)
          { heap := isolate.heap.set array.buffer
              (.JSArrayBuffer { buffer with backing_store := store })
            trace := isolate.trace ++
              [.NewByteArray array.byte_length,
               .memcpy_from_store array.buffer array.byte_offset array.byte_length,
               .sort_scratch array.length,
               .memcpy_to_store array.buffer array.byte_offset array.byte_length] } ∧
      store.length = buffer.backing_store.length ∧
      store.take array.byte_offset = buffer.backing_store.take array.byte_offset ∧
      store.drop (array.byte_offset + array.byte_length) =
        buffer.backing_store.drop (array.byte_offset + array.byte_length) ∧
      (array.elements { buffer with backing_store := store }).Perm (array.elements buffer) ∧
      (array.elements { buffer with backing_store := store }).Pairwise
        (fun a b => array.type.comparator b a = false) ∧
      Runtime_TypedArraySortFast std_sort cfg
          { isolate with heap := (isolate.heap.set array.buffer
              (.JSArrayBuffer { buffer with is_shared := false })) }
          [Object.HeapPointer p] =
        .ok (Object.HeapPointer p)
          { heap := isolate.heap.set array.buffer
              (.JSArrayBuffer { buffer with is_shared := false, backing_store := store })
            trace := isolate.trace ++
              [.sort_store array.buffer array.byte_offset array.length] } := by
  have hne := view_ne_buffer isolate.heap p array buffer harr hbuf
  have hc := hsort array.type.comparator (array.elements buffer) (comparator_swo array.type)
  have hel := elements_sortedStore std_sort hsort array buffer hv
  have hoff : (buffer.backing_store.take array.byte_offset).length = array.byte_offset := by
    have := hv.2
    rw [List.length_take]
    omega
  have hwl : (writeElements array.type.ctype
      (std_sort array.type.comparator (array.elements buffer))).length = array.byte_length := by
    rw [writeElements_length, hc.1.length_eq, hv.1]
    unfold JSTypedArray.elements
    rw [readElements_length]
  refine ⟨sortedStore std_sort array buffer,
    sortFast_shared std_sort hsort cfg isolate p array buffer harr hbuf hv hlen hsh hbytes,
    sortedStore_length std_sort hsort array buffer hv, ?_, ?_, ?_, ?_, ?_⟩
  · unfold sortedStore
    rw [List.take_left' hoff]
  · unfold sortedStore
    rw [← List.append_assoc]
    rw [List.drop_left' (by rw [List.length_append, hoff, hwl])]
  · rw [hel]
    exact hc.1
  · rw [hel]
    exact hc.2
  · have h2 := sortFast_nonshared std_sort cfg
      { isolate with heap := (isolate.heap.set array.buffer
          (.JSArrayBuffer { buffer with is_shared := false })) } p array
      { buffer with is_shared := false }
      (by simp only; rw [heap_get_set_ne _ _ _ _ hne]; exact harr)
      (heap_get_set _ _ _ _ hbuf) hv hlen rfl
    rw [h2]
    simp only [List.set_set]
    rfl

theorem sort_shared_snapshot_and_writeback_witness :
    ∃ store,
      Runtime_TypedArraySortFast insertionSort exampleConfig sharedIsolate
          [Object.HeapPointer 1] =
        .ok (Object.HeapPointer 1)
          { heap := sharedIsolate.heap.set int8View.buffer
              (.JSArrayBuffer { sharedBuffer with backing_store := store })
            trace := sharedIsolate.trace ++
              [.NewByteArray int8View.byte_length,
               .memcpy_from_store int8View.buffer int8View.byte_offset int8View.byte_length,
               .sort_scratch int8View.length,
               .memcpy_to_store int8View.buffer int8View.byte_offset int8View.byte_length] } ∧
      store.length = sharedBuffer.backing_store.length ∧
      store.take int8View.byte_offset = sharedBuffer.backing_store.take int8View.byte_offset ∧
      store.drop (int8View.byte_offset + int8View.byte_length) =
        sharedBuffer.backing_store.drop (int8View.byte_offset + int8View.byte_length) ∧
      (int8View.elements { sharedBuffer with backing_store := store }).Perm
        (int8View.elements sharedBuffer) ∧
      (int8View.elements { sharedBuffer with backing_store := store }).Pairwise
        (fun a b => int8View.type.comparator b a = false) ∧
      Runtime_TypedArraySortFast insertionSort exampleConfig
          { sharedIsolate with heap := (sharedIsolate.heap.set int8View.buffer
              (.JSArrayBuffer { sharedBuffer with is_shared := false })) }
          [Object.HeapPointer 1] =
        .ok (Object.HeapPointer 1)
          { heap := sharedIsolate.heap.set int8View.buffer
              (.JSArrayBuffer { sharedBuffer with is_shared := false, backing_store := store })
            trace := sharedIsolate.trace ++
              [.sort_store int8View.buffer int8View.byte_offset int8View.length] } :=
  sort_shared_snapshot_and_writeback insertionSort insertionSort_contract exampleConfig
    sharedIsolate 1 int8View sharedBuffer rfl rfl ⟨by decide, by decide⟩ rfl (by decide)
    (by decide)


/-- C3 as stated fails: the argument test is `IsJSArrayBuffer`.  A typed view is
rejected with the type error and its buffer stays attached, while a backing
store, which is no typed view, is accepted and detached. -/
theorem detach_rejects_typed_view :
    (Object.HeapPointer 1).IsJSTypedArray int8Isolate.heap = true ∧
    Runtime_ArrayBufferDetach int8Isolate [Object.HeapPointer 1] =
      .exception .kNotTypedArray int8Isolate ∧
    (Object.HeapPointer 0).IsJSTypedArray int8Isolate.heap = false ∧
    Runtime_ArrayBufferDetach int8Isolate [Object.HeapPointer 0] =
      .ok .Undefined
        { heap := [.JSArrayBuffer { backing_store := [], is_shared := false,
                                    was_detached := true },
                   .JSTypedArray int8View]
          trace := [] } := by
  decide

/-- C3, amended: the detach entry point fails with the type error
`kNotTypedArray` if and only if its argument is not a backing store
(`JSArrayBuffer`); a typed view is such an argument and is rejected.  On the
failing path the state is returned unchanged.  For every argument that is a
backing store it returns undefined, and afterwards that store has length 0 and
`detached = true`, which every view that refers to it observes. -/
theorem detach_fails_iff_not_array_buffer (isolate : Isolate) (argument : Object) :
    (Runtime_ArrayBufferDetach isolate [argument] = .exception .kNotTypedArray isolate ↔
      argument.IsJSArrayBuffer isolate.heap = false) ∧
    (argument.IsJSTypedArray isolate.heap = true →
      Runtime_ArrayBufferDetach isolate [argument] = .exception .kNotTypedArray isolate) ∧
    (∀ p buffer, argument = Object.HeapPointer p →
      isolate.heap[p]? = some (.JSArrayBuffer buffer) →
      Runtime_ArrayBufferDetach isolate [argument] =
        .ok .Undefined
          { isolate with heap := isolate.heap.set p (.JSArrayBuffer buffer.Detach) } ∧
      (isolate.heap.set p (.JSArrayBuffer buffer.Detach))[p]? =
        some (.JSArrayBuffer buffer.Detach) ∧
      buffer.Detach.backing_store.length = 0 ∧ buffer.Detach.was_detached = true) := by
  have hok : ∀ p buffer, argument = Object.HeapPointer p →
      isolate.heap[p]? = some (.JSArrayBuffer buffer) →
      Runtime_ArrayBufferDetach isolate [argument] =
        .ok .Undefined
          { isolate with heap := isolate.heap.set p (.JSArrayBuffer buffer.Detach) } := by
    intro p buffer harg hp
    subst harg
    simp [Runtime_ArrayBufferDetach, Object.IsJSArrayBuffer, hp]
  have hfail : argument.IsJSArrayBuffer isolate.heap = false →
      Runtime_ArrayBufferDetach isolate [argument] = .exception .kNotTypedArray isolate := by
    intro h
    simp [Runtime_ArrayBufferDetach, h]
  refine ⟨⟨?_, hfail⟩, ?_, ?_⟩
  · intro h
    cases hb : argument.IsJSArrayBuffer isolate.heap
    · rfl
    · exfalso
      cases argument with
      | Smi v => simp [Object.IsJSArrayBuffer] at hb
      | Undefined => simp [Object.IsJSArrayBuffer] at hb
      | HeapPointer p =>
        cases hp : isolate.heap[p]? with
        | none => simp [Object.IsJSArrayBuffer, hp] at hb
        | some o =>
          cases o with
          | JSArrayBuffer buffer =>
            rw [hok p buffer rfl hp] at h
            cases h
          | JSTypedArray a => simp [Object.IsJSArrayBuffer, hp] at hb
          | Other => simp [Object.IsJSArrayBuffer, hp] at hb
  · intro h
    apply hfail
    cases argument with
    | Smi v => rfl
    | Undefined => rfl
    | HeapPointer p =>
      cases hp : isolate.heap[p]? with
      | none => simp [Object.IsJSArrayBuffer, hp]
      | some o =>
        cases o with
        | JSArrayBuffer buffer => simp [Object.IsJSTypedArray, hp] at h
        | JSTypedArray a => simp [Object.IsJSArrayBuffer, hp]
        | Other => simp [Object.IsJSArrayBuffer, hp]
  · intro p buffer harg hp
    exact ⟨hok p buffer harg hp, heap_get_set _ _ _ _ hp, rfl, rfl⟩

/-- C4: for every `num_pages` that cannot be represented as a non-negative Smi,
every negative one in particular, `WasmMemoryGrow` returns -1, makes no runtime
call and leaves the instance alone.  For every representable `num_pages` it
calls the growth operation exactly once, with the context of the instance and
that same page count, and returns exactly the Smi that the operation returned. -/
theorem memory_grow_checks_representability (env : WasmEnv) (frame : Frame) (num_pages : Int) :
    ((num_pages < 0 ∨ env.kSmiMaxValue < num_pages) →
      WasmMemoryGrow env frame num_pages =
        { exit := .ReturnRaw (-1), wasm_instance := frame.wasm_instance, calls := [] }) ∧
    ((0 ≤ num_pages ∧ num_pages ≤ env.kSmiMaxValue) →
      (WasmMemoryGrow env frame num_pages).calls =
        [.kWasmMemoryGrow frame.wasm_instance.native_context num_pages] ∧
      (WasmMemoryGrow env frame num_pages).wasm_instance =
        (env.runtime (.kWasmMemoryGrow frame.wasm_instance.native_context num_pages)
          frame.wasm_instance).2 ∧
      ∀ ret : Int,
        (env.runtime (.kWasmMemoryGrow frame.wasm_instance.native_context num_pages)
          frame.wasm_instance).1 = .value (.Smi ret) →
        (WasmMemoryGrow env frame num_pages).exit = .ReturnRaw ret) := by
  refine ⟨?_, ?_⟩
  · intro h
    have hs : IsValidPositiveSmi env.kSmiMaxValue num_pages = false := by
      simp only [IsValidPositiveSmi, decide_eq_false_iff_not]
      omega
    simp [WasmMemoryGrow, ChangeInt32ToIntPtr, hs]
  · intro h
    have hs : IsValidPositiveSmi env.kSmiMaxValue num_pages = true := by
      simp only [IsValidPositiveSmi, decide_eq_true_eq]
      exact h
    unfold WasmMemoryGrow
    simp only [ChangeInt32ToIntPtr, hs, Bool.not_true, Bool.false_eq_true, if_false,
      SmiFromInt32, LoadInstanceFromFrame, LoadContextFromInstance, CallRuntime]
    cases hr : env.runtime (.kWasmMemoryGrow frame.wasm_instance.native_context num_pages)
      frame.wasm_instance with
    | mk r inst' =>
      cases r with
      | value o =>
        refine ⟨rfl, rfl, ?_⟩
        intro ret hret
        simp only at hret
        injection hret with hret
        subst hret
        rfl
      | exception id =>
        refine ⟨rfl, rfl, ?_⟩
        intro ret hret
        simp at hret

/-- C5: for every table of length `n` (a table is no longer than the Smi range)
and every entry index, `WasmTableGet` and `WasmTableSet` end in the
table-out-of-range trap if and only if the index is outside `[0, n)`.  An index
that is not a non-negative Smi is answered by throwing the message id of
`kTrapTableOutOfBounds` directly: the table operation is not called and the
instance is unchanged.  A representable index is passed on unchanged, with the
same table index (and value), to the table operation, which traps in the same
way when the index is not below `n` and otherwise succeeds; so the index `n`
traps and the index `n - 1` succeeds. -/
theorem table_access_traps_iff_out_of_range (env : WasmEnv) (hrt : TableRuntimeContract env)
    (frame : Frame) (table_index entry_index : Int) (value : Object) (table : List Object)
    (hti : 0 ≤ table_index)
    (htable : frame.wasm_instance.tables[table_index.toNat]? = some table)
    (hn : (table.length : Int) ≤ env.kSmiMaxValue + 1) :
    ((WasmTableGet env frame table_index entry_index).exit =
        .TailCallRuntime (.exception (env.TrapReasonToMessageId .kTrapTableOutOfBounds)) ↔
      ¬ (0 ≤ entry_index ∧ entry_index < table.length)) ∧
    ((WasmTableSet env frame table_index entry_index value).exit =
        .TailCallRuntime (.exception (env.TrapReasonToMessageId .kTrapTableOutOfBounds)) ↔
      ¬ (0 ≤ entry_index ∧ entry_index < table.length)) ∧
    ((entry_index < 0 ∨ env.kSmiMaxValue < entry_index) →
      WasmTableGet env frame table_index entry_index =
        { exit := .TailCallRuntime
            (.exception (env.TrapReasonToMessageId .kTrapTableOutOfBounds))
          wasm_instance := frame.wasm_instance
          calls := [.kThrowWasmError frame.wasm_instance.native_context
            (env.TrapReasonToMessageId .kTrapTableOutOfBounds)] } ∧
      WasmTableSet env frame table_index entry_index value =
        { exit := .TailCallRuntime
            (.exception (env.TrapReasonToMessageId .kTrapTableOutOfBounds))
          wasm_instance := frame.wasm_instance
          calls := [.kThrowWasmError frame.wasm_instance.native_context
            (env.TrapReasonToMessageId .kTrapTableOutOfBounds)] }) ∧
    ((0 ≤ entry_index ∧ entry_index ≤ env.kSmiMaxValue) →
      (WasmTableGet env frame table_index entry_index).calls =
        [.kWasmFunctionTableGet frame.wasm_instance.native_context table_index entry_index] ∧
      (WasmTableSet env frame table_index entry_index value).calls =
        [.kWasmFunctionTableSet frame.wasm_instance.native_context table_index entry_index
          value]) ∧
    (¬ (0 ≤ entry_index ∧ entry_index < table.length) →
      (WasmTableGet env frame table_index entry_index).wasm_instance = frame.wasm_instance ∧
      (WasmTableSet env frame table_index entry_index value).wasm_instance =
        frame.wasm_instance) ∧
    ((0 ≤ entry_index ∧ entry_index < table.length) →
      WasmTableGet env frame table_index entry_index =
        { exit := .TailCallRuntime (.value (table.getD entry_index.toNat .Undefined))
          wasm_instance := frame.wasm_instance
          calls := [.kWasmFunctionTableGet frame.wasm_instance.native_context table_index
            entry_index] } ∧
      WasmTableSet env frame table_index entry_index value =
        { exit := .TailCallRuntime (.value .Undefined)
          wasm_instance :=
            { frame.wasm_instance with
              tables := (frame.wasm_instance.tables.set table_index.toNat
                (table.set entry_index.toNat value)) }
          calls := [.kWasmFunctionTableSet frame.wasm_instance.native_context table_index
            entry_index value] }) := by
  obtain ⟨hthrow, hget, hset⟩ := hrt
  have hti' : ¬ table_index < 0 := not_lt.2 hti
  -- the run on an index that is no Smi
  have hGetNo : IsValidPositiveSmi env.kSmiMaxValue entry_index = false →
      WasmTableGet env frame table_index entry_index =
        { exit := .TailCallRuntime
            (.exception (env.TrapReasonToMessageId .kTrapTableOutOfBounds))
          wasm_instance := frame.wasm_instance
          calls := [.kThrowWasmError frame.wasm_instance.native_context
            (env.TrapReasonToMessageId .kTrapTableOutOfBounds)] } := by
    intro h
    simp [WasmTableGet, ChangeInt32ToIntPtr, h, CallRuntime, hthrow, Runtime_ThrowWasmError,
      LoadInstanceFromFrame, LoadContextFromInstance]
  have hSetNo : IsValidPositiveSmi env.kSmiMaxValue entry_index = false →
      WasmTableSet env frame table_index entry_index value =
        { exit := .TailCallRuntime
            (.exception (env.TrapReasonToMessageId .kTrapTableOutOfBounds))
          wasm_instance := frame.wasm_instance
          calls := [.kThrowWasmError frame.wasm_instance.native_context
            (env.TrapReasonToMessageId .kTrapTableOutOfBounds)] } := by
    intro h
    simp [WasmTableSet, ChangeInt32ToIntPtr, h, CallRuntime, hthrow, Runtime_ThrowWasmError,
      LoadInstanceFromFrame, LoadContextFromInstance]
  -- the run on a Smi index, in terms of the table operation
  have hGetYes : IsValidPositiveSmi env.kSmiMaxValue entry_index = true →
      ∀ r, Runtime_WasmFunctionTableGet env.TrapReasonToMessageId frame.wasm_instance
        table_index entry_index = some r →
      WasmTableGet env frame table_index entry_index =
        { exit := .TailCallRuntime r.1, wasm_instance := r.2
          calls := [.kWasmFunctionTableGet frame.wasm_instance.native_context table_index
            entry_index] } := by
    intro h r hr
    simp [WasmTableGet, ChangeInt32ToIntPtr, h, CallRuntime, SmiFromInt32,
      LoadInstanceFromFrame, LoadContextFromInstance, hget _ _ _ _ _ hr]
  have hSetYes : IsValidPositiveSmi env.kSmiMaxValue entry_index = true →
      ∀ r, Runtime_WasmFunctionTableSet env.TrapReasonToMessageId frame.wasm_instance
        table_index entry_index value = some r →
      WasmTableSet env frame table_index entry_index value =
        { exit := .TailCallRuntime r.1, wasm_instance := r.2
          calls := [.kWasmFunctionTableSet frame.wasm_instance.native_context table_index
            entry_index value] } := by
    intro h r hr
    simp [WasmTableSet, ChangeInt32ToIntPtr, h, CallRuntime, SmiFromInt32,
      LoadInstanceFromFrame, LoadContextFromInstance, hset _ _ _ _ _ _ hr]
  -- the table operation of the spec, in and out of range
  have hopGetIn : (0 ≤ entry_index ∧ entry_index < table.length) →
      Runtime_WasmFunctionTableGet env.TrapReasonToMessageId frame.wasm_instance
        table_index entry_index =
        some (.value (table.getD entry_index.toNat .Undefined), frame.wasm_instance) := by
    intro h
    simp [Runtime_WasmFunctionTableGet, hti', htable, h]
  have hopGetOut : ¬ (0 ≤ entry_index ∧ entry_index < table.length) →
      Runtime_WasmFunctionTableGet env.TrapReasonToMessageId frame.wasm_instance
        table_index entry_index =
        some (.exception (env.TrapReasonToMessageId .kTrapTableOutOfBounds),
          frame.wasm_instance) := by
    intro h
    simp only [Runtime_WasmFunctionTableGet, hti', htable, if_false, if_neg h]
  have hopSetIn : (0 ≤ entry_index ∧ entry_index < table.length) →
      Runtime_WasmFunctionTableSet env.TrapReasonToMessageId frame.wasm_instance
        table_index entry_index value =
        some (.value .Undefined,
          { frame.wasm_instance with
            tables := (frame.wasm_instance.tables.set table_index.toNat
              (table.set entry_index.toNat value)) }) := by
    intro h
    simp [Runtime_WasmFunctionTableSet, hti', htable, h]
  have hopSetOut : ¬ (0 ≤ entry_index ∧ entry_index < table.length) →
      Runtime_WasmFunctionTableSet env.TrapReasonToMessageId frame.wasm_instance
        table_index entry_index value =
        some (.exception (env.TrapReasonToMessageId .kTrapTableOutOfBounds),
          frame.wasm_instance) := by
    intro h
    simp only [Runtime_WasmFunctionTableSet, hti', htable, if_false, if_neg h]
  -- an index in range is a Smi
  have hfit : (0 ≤ entry_index ∧ entry_index < table.length) →
      IsValidPositiveSmi env.kSmiMaxValue entry_index = true := by
    intro h
    simp only [IsValidPositiveSmi, decide_eq_true_eq]
    omega
  have hGetOut : ¬ (0 ≤ entry_index ∧ entry_index < table.length) →
      WasmTableGet env frame table_index entry_index =
        { exit := .TailCallRuntime
            (.exception (env.TrapReasonToMessageId .kTrapTableOutOfBounds))
          wasm_instance := frame.wasm_instance
          calls := (WasmTableGet env frame table_index entry_index).calls } := by
    intro h
    cases hs : IsValidPositiveSmi env.kSmiMaxValue entry_index
    · rw [hGetNo hs]
    · rw [hGetYes hs _ (hopGetOut h)]
  have hSetOut : ¬ (0 ≤ entry_index ∧ entry_index < table.length) →
      WasmTableSet env frame table_index entry_index value =
        { exit := .TailCallRuntime
            (.exception (env.TrapReasonToMessageId .kTrapTableOutOfBounds))
          wasm_instance := frame.wasm_instance
          calls := (WasmTableSet env frame table_index entry_index value).calls } := by
    intro h
    cases hs : IsValidPositiveSmi env.kSmiMaxValue entry_index
    · rw [hSetNo hs]
    · rw [hSetYes hs _ (hopSetOut h)]
  have hGetIn := fun h => hGetYes (hfit h) _ (hopGetIn h)
  have hSetIn := fun h => hSetYes (hfit h) _ (hopSetIn h)
  refine ⟨⟨?_, ?_⟩, ⟨?_, ?_⟩, ?_, ?_, ?_, ?_⟩
  · intro h hin
    rw [hGetIn hin] at h
    simp at h
  · intro h
    rw [hGetOut h]
  · intro h hin
    rw [hSetIn hin] at h
    simp at h
  · intro h
    rw [hSetOut h]
  · intro h
    have hs : IsValidPositiveSmi env.kSmiMaxValue entry_index = false := by
      simp only [IsValidPositiveSmi, decide_eq_false_iff_not]
      omega
    exact ⟨hGetNo hs, hSetNo hs⟩
  · intro h
    have hs : IsValidPositiveSmi env.kSmiMaxValue entry_index = true := by
      simp only [IsValidPositiveSmi, decide_eq_true_eq]
      exact h
    constructor
    · simp [WasmTableGet, ChangeInt32ToIntPtr, hs, SmiFromInt32, LoadInstanceFromFrame,
        LoadContextFromInstance]
    · simp [WasmTableSet, ChangeInt32ToIntPtr, hs, SmiFromInt32, LoadInstanceFromFrame,
        LoadContextFromInstance]
  · intro h
    constructor
    · rw [hGetOut h]
    · rw [hSetOut h]
  · intro h
    exact ⟨hGetIn h, hSetIn h⟩

theorem table_access_traps_iff_out_of_range_witness :
    (WasmTableGet exampleEnv exampleFrame 0 3).exit =
        .TailCallRuntime (.exception (exampleMessageId .kTrapTableOutOfBounds)) ∧
    WasmTableGet exampleEnv exampleFrame 0 2 =
        { exit := .TailCallRuntime (.value (.Smi 12))
          wasm_instance := exampleFrame.wasm_instance
          calls := [.kWasmFunctionTableGet 5 0 2] } :=
  ⟨((table_access_traps_iff_out_of_range exampleEnv exampleEnv_contract exampleFrame 0 3
      .Undefined [.Smi 10, .Smi 11, .Smi 12] (by decide) rfl (by decide)).1).2 (by decide),
   ((table_access_traps_iff_out_of_range exampleEnv exampleEnv_contract exampleFrame 0 2
      .Undefined [.Smi 10, .Smi 11, .Smi 12] (by decide) rfl (by decide)).2.2.2.2.2
      (by decide)).1⟩


/-- C6 as stated fails for `CopyElements`: called with length 5 and target offset
2 it hands offset 0 to the copy engine, so `target[0..5)` is written and
`target[0..2)` is not left alone; `Set` on the same arguments writes
`target[2..7)`. -/
theorem copy_elements_ignores_target_offset :
    Runtime_TypedArrayCopyElements exampleNumberToSize (CopyElements id) exampleCopyArgs =
      some [1, 2, 3, 4, 5, 0, 0, 0] ∧
    Runtime_TypedArraySet exampleNumberToSize (CopyElements id) exampleCopyArgs =
      some [0, 0, 1, 2, 3, 4, 5, 0] ∧
    ([1, 2, 3, 4, 5, 0, 0, 0] : List Nat).take 2 ≠ exampleTarget.take 2 := by
  decide

/-- C6, amended: for every target, source, length and target offset with the
offset at most `kMaxUInt32`, `Set` hands exactly that length and that offset to
the copy engine, while `CopyElements` takes no target offset and hands that
length and offset 0.  With the copy engine of the spec and `offset + length`
within the target, `Set` therefore writes exactly `target[offset, offset+length)`
with the converted source elements and leaves the elements before and behind
untouched, and `CopyElements` writes exactly `target[0, length)`. -/
theorem set_passes_length_and_offset {Tgt Src Num R : Type}
    (TryNumberToSize : Num → Option Nat) (accessor_CopyElements : Src → Tgt → Nat → Nat → R)
    (args : Arguments Tgt Src Num) (length_obj offset_obj : Num) (rest : List Num)
    (length offset : Nat)
    (hargs : args.numbers = length_obj :: offset_obj :: rest)
    (hlength : TryNumberToSize length_obj = some length)
    (hoffset : TryNumberToSize offset_obj = some offset)
    (hmax : offset ≤ kMaxUInt32) :
    Runtime_TypedArraySet TryNumberToSize accessor_CopyElements args =
      some (accessor_CopyElements args.source args.target length offset) ∧
    Runtime_TypedArrayCopyElements TryNumberToSize accessor_CopyElements args =
      some (accessor_CopyElements args.source args.target length 0) ∧
    (∀ {α β : Type} (convert : β → α) (source : Nat → β) (target : List α),
      offset + length ≤ target.length →
      (CopyElements convert source target length offset).length = target.length ∧
      (CopyElements convert source target length offset).take offset = target.take offset ∧
      ((CopyElements convert source target length offset).drop offset).take length =
        (List.range length).map (fun i => convert (source i)) ∧
      (CopyElements convert source target length offset).drop (offset + length) =
        target.drop (offset + length)) ∧
    (∀ {α β : Type} (convert : β → α) (source : Nat → β) (target : List α),
      length ≤ target.length →
      (CopyElements convert source target length 0).take length =
        (List.range length).map (fun i => convert (source i)) ∧
      (CopyElements convert source target length 0).drop length = target.drop length) := by
  have hmod : offset % 2 ^ 32 = offset := by
    apply Nat.mod_eq_of_lt
    unfold kMaxUInt32 at hmax
    omega
  refine ⟨?_, ?_, ?_, ?_⟩
  · simp only [Runtime_TypedArraySet, hargs, hlength, hoffset, hmod, List.getElem?_cons_zero,
      List.getElem?_cons_succ]
  · simp [Runtime_TypedArrayCopyElements, hargs, hlength]
  · intro α β convert source target hle
    have hoff : (target.take offset).length = offset := by
      rw [List.length_take]
      omega
    have hmid : ((List.range length).map (fun i => convert (source i))).length = length := by
      simp
    unfold CopyElements
    refine ⟨?_, ?_, ?_, ?_⟩
    · simp only [List.length_append, List.length_take, List.length_map, List.length_range,
        List.length_drop]
      omega
    · rw [List.take_left' hoff]
    · rw [List.drop_left' hoff, List.take_left' hmid]
    · rw [← List.append_assoc, List.drop_left' (by rw [List.length_append, hoff, hmid])]
  · intro α β convert source target hle
    have hmid : ((List.range length).map (fun i => convert (source i))).length = length := by
      simp
    unfold CopyElements
    simp only [List.take_zero, List.nil_append, Nat.zero_add]
    exact ⟨List.take_left' hmid, List.drop_left' hmid⟩

theorem set_passes_length_and_offset_witness :
    Runtime_TypedArraySet exampleNumberToSize (CopyElements id) exampleCopyArgs =
      some (CopyElements id exampleSource exampleTarget 5 2) :=
  (set_passes_length_and_offset exampleNumberToSize (CopyElements id) exampleCopyArgs 5 2 []
    5 2 rfl (by decide) (by decide) (by decide)).1

end V8
